import Mathlib

/-!
Verification of the DocumentDB HTTP API server (`src/api-server.py`).

The server bridges HTTP requests to MongoDB operations: eight action
endpoints (insertOne, insertMany, find, aggregate, updateOne, updateMany,
deleteOne, deleteMany) gated by a static basic-authentication check, plus
an unauthenticated health endpoint.

This file gives a shallow embedding of the server's request handlers.
Pure Python functions become Lean functions; the external MongoDB store is
modelled by an explicit `DB` state (an association of `(database,
collection)` keys to document lists, a fresh-ObjectId counter, and an
optional failure message modelling a database that raises on every
command); Python exceptions become `Except String` values, errors carrying
the exception's textual message.
-/

namespace DocumentDB

/-- JSON-like values as handled by the server.  `oid` models the
database's native ObjectId type (not JSON-serializable in Python: passing
it to `jsonify` raises a `TypeError`).  `num` models JSON numbers as
integers (the requests exercised by the claims carry only integers). -/
inductive JValue where
  | null : JValue
  | bool : Bool → JValue
  | num : Int → JValue
  | str : String → JValue
  | arr : List JValue → JValue
  | obj : List (String × JValue) → JValue
  | oid : Nat → JValue

/-- A stored document: an ordered field list, modelling a Python/BSON
dict (keys are unique in documents produced by JSON parsing). -/
abbrev Doc := List (String × JValue)

/-- First-occurrence field lookup in a document, modelling Python
`d[k]` / `k in d` on a dict (parsed JSON objects have unique keys). -/
def jlookup (fields : Doc) (k : String) : Option JValue :=
  match fields with
  | [] => none
  | (k₂, v) :: rest => if k₂ = k then some v else jlookup rest k

/-- Replace the value of the first occurrence of key `k`, modelling
Python `d[k] = v` on a dict that already contains `k`. -/
def setField (fields : Doc) (k : String) (v : JValue) : Doc :=
  match fields with
  | [] => []
  | (k₂, w) :: rest => if k₂ = k then (k₂, v) :: rest else (k₂, w) :: setField rest k v

/-- Python `d[k] = v` when `k` may be absent: replace the first
occurrence or append (models MongoDB `$set` adding a missing field). -/
def setFieldAdd (fields : Doc) (k : String) (v : JValue) : Doc :=
  if (jlookup fields k).isSome then setField fields k v else fields ++ [(k, v)]

/-- Python truthiness (`if limit:`) of a JSON value as received from
`request.get_json()`: `None`, `False`, `0`, `""`, `[]`, `{}` are falsy. -/
def jTruthy : JValue → Bool
  | .null => false
  | .bool b => b
  | .num n => n != 0
  | .str s => !s.isEmpty
  | .arr xs => !xs.isEmpty
  | .obj fs => !fs.isEmpty
  | .oid _ => true

/-- Python `isinstance(x, int)` coercion for values coming from JSON:
ints are ints, and `bool` is a subclass of `int` (`True == 1`).
`none` models the `TypeError` raised by pymongo cursor methods. -/
def pyToInt : JValue → Option Int
  | .num n => some n
  | .bool b => some (if b then 1 else 0)
  | _ => none

/-- Models Python `str()` as applied to values appearing as document ids.
ObjectIds render as their hex digits (the exact 24-character padding of
`str(ObjectId)` is abstracted); container rendering (Python `repr`) is
abstracted to a constant.  What the claims rely on is that the result is
a string. -/
def pyStr : JValue → String
  | .null => "None"
  | .bool true => "True"
  | .bool false => "False"
  | .num n => toString n
  | .str s => s
  | .oid n => (Nat.toDigits 16 n).asString
  | .arr _ => "[...]"
  | .obj _ => "{...}"

mutual

/-- `true` when the value contains no ObjectId anywhere, i.e. Python's
`jsonify`/`json.dumps` can serialize it without raising `TypeError`. -/
def oidFree : JValue → Bool
  | .null => true
  | .bool _ => true
  | .num _ => true
  | .str _ => true
  | .oid _ => false
  | .arr xs => oidFreeArr xs
  | .obj fs => oidFreeObj fs

/-- `oidFree` on every element of an array. -/
def oidFreeArr : List JValue → Bool
  | [] => true
  | x :: xs => oidFree x && oidFreeArr xs

/-- `oidFree` on every field value of an object. -/
def oidFreeObj : List (String × JValue) → Bool
  | [] => true
  | (_, v) :: fs => oidFree v && oidFreeObj fs

end

mutual

/-- Structural equality of values, modelling BSON equality as used by
MongoDB for filter matching and change detection (order-sensitive on
embedded documents, as BSON comparison is). -/
def jbeq : JValue → JValue → Bool
  | .null, .null => true
  | .bool a, .bool b => a == b
  | .num a, .num b => a == b
  | .str a, .str b => a == b
  | .oid a, .oid b => a == b
  | .arr xs, .arr ys => jbeqArr xs ys
  | .obj fs, .obj gs => jbeqObj fs gs
  | _, _ => false

/-- Elementwise `jbeq` on arrays. -/
def jbeqArr : List JValue → List JValue → Bool
  | [], [] => true
  | x :: xs, y :: ys => jbeq x y && jbeqArr xs ys
  | _, _ => false

/-- Fieldwise `jbeq` on objects. -/
def jbeqObj : List (String × JValue) → List (String × JValue) → Bool
  | [], [] => true
  | (k₁, v) :: fs, (k₂, w) :: gs => k₁ == k₂ && jbeq v w && jbeqObj fs gs
  | _, _ => false

end

/-! ## The authenticator (`authenticate_request`, lines 25-36)

```python
def authenticate_request():
    auth_header = request.headers.get('Authorization', '')
    if not auth_header.startswith('Basic '):
        return False
    try:
        credentials = base64.b64decode(auth_header[6:]).decode('utf-8')
        username, password = credentials.split(':', 1)
        return username == 'testuser' and password == 'testpass'
    except:
        return False
```

`base64.b64decode` on a `str` first encodes it as ASCII (`ValueError` on a
non-ASCII character) and then decodes in CPython's legacy (non-strict)
mode: characters outside the base64 alphabet are *discarded* before the
padding check; once enough padding has been seen to complete the current
group of four, decoding stops and the rest of the input is ignored; at
end of input, a leftover group of one, two or three data characters is an
error ("Incorrect padding").  `b64Step`/`b64Finish` below model that
state machine exactly (field `pads` accumulates `=` characters seen at
group position >= 2 and is reset to zero by every accepted data
character, exactly as CPython's `pads` counter is).

The decoded bytes then go through `.decode('utf-8')` (exception on
invalid UTF-8) and `split(':', 1)` on the resulting string, and the two
parts are compared with `'testuser'` / `'testpass'`.  We model this at
the byte level: the decode succeeds and both comparisons hold iff the
byte string equals the UTF-8 bytes of `"testuser:testpass"`, and in valid
UTF-8 the byte 58 occurs exactly at the character `':'`, so splitting the
byte list at the first 58 and comparing with the UTF-8 bytes of the two
credentials is extensionally the same function.  All failure paths are
swallowed by the bare `except:` and become `false`:  the embedding is a
total function, so the authenticator never raises. -/

/-- Value of a character in the standard base64 alphabet (`A-Z`, `a-z`,
`0-9`, `+`, `/`), or `none` for every other character. -/
def b64Val (c : Char) : Option Nat :=
  let n := c.toNat
  if 65 ≤ n ∧ n ≤ 90 then some (n - 65)
  else if 97 ≤ n ∧ n ≤ 122 then some (n - 97 + 26)
  else if 48 ≤ n ∧ n ≤ 57 then some (n - 48 + 52)
  else if n = 43 then some 62
  else if n = 47 then some 63
  else none

/-- State of CPython's `binascii.a2b_base64` legacy-mode scanner:
bytes emitted so far, the values of the current group of four, the
running count of padding characters, and whether padding completed the
input (after which all further characters are ignored). -/
structure B64State where
  out : List Nat
  quad : List Nat
  pads : Nat
  fin : Bool

/-- Three output bytes of a complete base64 group of four values. -/
def quadBytes (v₀ v₁ v₂ v₃ : Nat) : List Nat :=
  [v₀ * 4 + v₁ / 16, (v₁ % 16) * 16 + v₂ / 4, (v₂ % 4) * 64 + v₃]

/-- Output bytes of a padded final group of two or three values (low
leftover bits are dropped, unchecked — legacy mode). -/
def padBytes : List Nat → List Nat
  | [v₀, v₁] => [v₀ * 4 + v₁ / 16]
  | [v₀, v₁, v₂] => [v₀ * 4 + v₁ / 16, (v₁ % 16) * 16 + v₂ / 4]
  | _ => []

/-- One scanner step of legacy-mode base64 decoding: alphabet characters
extend the current group (emitting three bytes on a complete group) and
reset the running padding count, as CPython does on every accepted data
character; `=` at group position >= 2 counts toward padding and, once
the group is padded to four, emits the partial bytes and stops the
scan; every other character (including `=` at group position 0 or 1) is
discarded, leaving the padding count untouched. -/
def b64Step (s : B64State) (c : Char) : B64State :=
  if s.fin then s
  else
    match b64Val c with
    | some v =>
      match s.quad with
      | [v₀, v₁, v₂] => { s with out := s.out ++ quadBytes v₀ v₁ v₂ v, quad := [], pads := 0 }
      | q => { s with quad := q ++ [v], pads := 0 }
    | none =>
      if c = '=' then
        if s.quad.length ≥ 2 then
          if s.quad.length + (s.pads + 1) ≥ 4 then
            { s with out := s.out ++ padBytes s.quad, quad := [], pads := s.pads + 1, fin := true }
          else { s with pads := s.pads + 1 }
        else s
      else s

/-- End of input: a leftover group of one, two or three data characters
is an error (`binascii.Error: Incorrect padding`), otherwise the
accumulated bytes are the result. -/
def b64Finish (s : B64State) : Option (List Nat) :=
  if s.fin then some s.out
  else if s.quad.isEmpty then some s.out
  else none

/-- `base64.b64decode` applied to a Python `str` (default, non-strict
mode): fails on any non-ASCII character (`str.encode('ascii')`), then
runs the legacy scanner over the characters.  Strings are handled as
their character lists throughout (Python slices and compares strings by
code point). -/
def b64decode (payload : List Char) : Option (List Nat) :=
  if payload.all (fun c => c.toNat < 128) then
    b64Finish (payload.foldl b64Step ⟨[], [], 0, false⟩)
  else none

/-- `s.startswith(pat)` on character lists. -/
def charsLeadWith : List Char → List Char → Bool
  | [], _ => true
  | _ :: _, [] => false
  | p :: ps, c :: cs => p == c && charsLeadWith ps cs

/-- UTF-8 encoding of a single code point. -/
def utf8EncodeNat (n : Nat) : List Nat :=
  if n < 128 then [n]
  else if n < 2048 then [192 + n / 64, 128 + n % 64]
  else if n < 65536 then [224 + n / 4096, 128 + (n / 64) % 64, 128 + n % 64]
  else [240 + n / 262144, 128 + (n / 4096) % 64, 128 + (n / 64) % 64, 128 + n % 64]

/-- UTF-8 bytes of a string (`str.encode('utf-8')`). -/
def strBytes (s : String) : List Nat :=
  s.toList.flatMap (fun c => utf8EncodeNat c.toNat)

/-- `credentials.split(':', 1)` at the byte level: split at the first
occurrence of byte 58 (`:`); `none` models the `ValueError` raised by
unpacking `username, password = ...` when no colon is present. -/
def splitFirstColon (bs : List Nat) : Option (List Nat × List Nat) :=
  match bs with
  | [] => none
  | b :: rest =>
    if b = 58 then some ([], rest)
    else
      match splitFirstColon rest with
      | some (u, p) => some (b :: u, p)
      | none => none

/-- The configured username, as UTF-8 bytes. -/
def USERNAME : List Nat := strBytes "testuser"

/-- The configured password, as UTF-8 bytes. -/
def PASSWORD : List Nat := strBytes "testpass"

/-- `authenticate_request` (lines 25-36), as a pure function of the raw
`Authorization` header value.  Total: every Python failure path (bad
base64, non-UTF-8 bytes, missing colon) is a `none` that becomes
`false`, exactly as the bare `except:` returns `False`. -/
def authenticate_request (auth_header : String) : Bool :=
  if !charsLeadWith "Basic ".toList auth_header.toList then false
  else
    match b64decode (auth_header.toList.drop 6) with
    | none => false
    | some bs =>
      match splitFirstColon bs with
      | none => false
      | some (username, password) => username == USERNAME && password == PASSWORD

/-- Follows the spec words, for comparison with the source: a *valid*
base64 string in the strict sense — length a multiple of four, data
characters drawn from the base64 alphabet, followed only by at most two
`=` padding characters at the very end. -/
def isStrictBase64 (s : String) : Bool :=
  let cs := s.toList
  let dat := cs.takeWhile (fun c => (b64Val c).isSome)
  let rest := cs.drop dat.length
  cs.length % 4 == 0 && rest.length ≤ 2 && rest.all (fun c => c = '=')

example : b64decode (String.toList "dGVzdHVzZXI6dGVzdHBhc3M=") = some (strBytes "testuser:testpass") := by decide
example : b64decode (String.toList "?dGVzdHVzZXI6dGVzdHBhc3M=") = some (strBytes "testuser:testpass") := by decide
example : b64decode (String.toList "abc") = none := by decide
example : b64decode (String.toList "ab=") = none := by decide
example : b64decode (String.toList "ab==") = some [105] := by decide
example : b64decode (String.toList "=abcd") = some [105, 183, 29] := by decide
example : b64decode (String.toList "ab=c=") = some [105, 183] := by decide
example : b64decode (String.toList "dGVzdA==XYZW") = some (strBytes "test") := by decide
example : b64decode (String.toList "dG=VzdH=VzZXI6dGVzdHBhc3M=") =
    some (strBytes "testuser:testpass") := by decide
example : b64decode (String.toList "ab=cdef=") = none := by decide
example : authenticate_request "Basic dG=VzdH=VzZXI6dGVzdHBhc3M=" = true := by decide
example : authenticate_request "Basic dGVzdHVzZXI6dGVzdHBhc3M=" = true := by decide
example : authenticate_request "Basic dGVzdHVzZXI6d3Jvbmc=" = false := by decide
example : authenticate_request "" = false := by decide
example : authenticate_request "Bearer xyz" = false := by decide

/-! ## The database model

The MongoDB store is an external collaborator (the spec keeps its
storage engine, indexing and query execution out of scope), so it is
modelled explicitly: a map from `(database, collection)` name pairs to
document lists in insertion order, a counter supplying fresh ObjectIds,
and an optional failure message.  When `failure` is set, every database
command raises a driver error carrying that message — this models
connectivity and query errors surfacing as exceptions from pymongo.
Filter matching is modelled as top-level field equality (`{}` matches
everything), and update documents support the `$set` operator; both are
models of the opaque external query engine, faithful to the fragment the
claims exercise. -/

/-- The modelled state of the external MongoDB deployment. -/
structure DB where
  colls : List ((String × String) × List Doc)
  nextId : Nat
  failure : Option String

/-- `get_collection` (lines 38-41): resolving a collection is a cheap
handle construction — the `(database, collection)` key — with no
validation and no connection. -/
def get_collection (database_name collection_name : String) : String × String :=
  (database_name, collection_name)

/-- The documents currently stored under a collection handle (an absent
collection reads as empty, as in MongoDB). -/
def DB.readColl (db : DB) (h : String × String) : List Doc :=
  match db.colls.find? (fun e => e.1 = h) with
  | some e => e.2
  | none => []

/-- Store a document list under a collection handle. -/
def collsWrite : List ((String × String) × List Doc) → (String × String) → List Doc →
    List ((String × String) × List Doc)
  | [], h, docs => [(h, docs)]
  | e :: rest, h, docs =>
    if e.1 = h then (h, docs) :: rest else e :: collsWrite rest h docs

/-- Store a document list under a collection handle. -/
def DB.writeColl (db : DB) (h : String × String) (docs : List Doc) : DB :=
  { db with colls := collsWrite db.colls h docs }

/-- MongoDB filter matching, modelled as top-level equality of every
filter field with the corresponding document field; the empty filter
matches every document. -/
def docMatches (doc : Doc) (filt : Doc) : Bool :=
  filt.all (fun kv =>
    match jlookup doc kv.1 with
    | some v => jbeq v kv.2
    | none => false)

/-- Fieldwise document equality (used for `modified_count`). -/
def docBeq (d₁ d₂ : Doc) : Bool := jbeqObj d₁ d₂

/-- The error message carried by a driver failure, if the database is
failing; `checkUp` makes every modelled command raise it first. -/
def DB.checkUp (db : DB) : Except String Unit :=
  match db.failure with
  | some e => Except.error e
  | none => Except.ok ()

/-- `collection.insert_one(document)`: the document must be a mapping;
a missing `_id` is filled in with a fresh ObjectId (placed first, as
pymongo does); returns the inserted id and the new state. -/
def collInsertOne (db : DB) (h : String × String) (document : JValue) :
    Except String (JValue × DB) := do
  db.checkUp
  match document with
  | .obj fields =>
    let (idv, stored, db₂) :=
      match jlookup fields "_id" with
      | some v => (v, fields, db)
      | none =>
        (.oid db.nextId, ("_id", JValue.oid db.nextId) :: fields, { db with nextId := db.nextId + 1 })
    Except.ok (idv, db₂.writeColl h (db₂.readColl h ++ [stored]))
  | _ => Except.error "document must be an instance of dict"

/-- The per-document loop of `insert_many`: assign fresh ObjectIds to
documents missing `_id`, accumulating the stored documents and inserted
ids (both in reverse); a non-mapping element raises. -/
def insertManyGo (h : String × String) (db₂ : DB) (stored : List Doc) (ids : List JValue) :
    List JValue → Except String (List JValue × DB)
  | [] => Except.ok (ids.reverse, db₂.writeColl h (db₂.readColl h ++ stored.reverse))
  | d :: rest =>
    match d with
    | .obj fields =>
      match jlookup fields "_id" with
      | some v => insertManyGo h db₂ (fields :: stored) (v :: ids) rest
      | none =>
        insertManyGo h { db₂ with nextId := db₂.nextId + 1 }
          ((("_id", JValue.oid db₂.nextId) :: fields) :: stored)
          (.oid db₂.nextId :: ids) rest
    | _ => Except.error "documents must be a list of mappings"

/-- `collection.insert_many(documents)`: the argument must be a
non-empty list of mappings; each document missing `_id` gets a fresh
ObjectId; returns the inserted ids in order and the new state. -/
def collInsertMany (db : DB) (h : String × String) (documents : JValue) :
    Except String (List JValue × DB) := do
  db.checkUp
  match documents with
  | .arr ds =>
    if ds.isEmpty then Except.error "documents must be a non-empty list"
    else insertManyGo h db [] [] ds
  | _ => Except.error "documents must be a non-empty list"

/-- `collection.find(filter_doc)`: the filter must be a mapping or
`None` (pymongo treats `None` as the match-all filter); returns the
matching documents in insertion order. -/
def collFind (db : DB) (h : String × String) (filter_doc : JValue) :
    Except String (List Doc) := do
  db.checkUp
  match filter_doc with
  | .obj ffs => Except.ok ((db.readColl h).filter (fun d => docMatches d ffs))
  | .null => Except.ok (db.readColl h)
  | _ => Except.error "filter must be an instance of dict"

/-- `collection.aggregate(pipeline)`: the pipeline must be a list whose
stages are documents.  The external aggregation engine is opaque; it is
modelled as returning the collection's documents unchanged (the empty
pipeline genuinely does exactly that). -/
def collAggregate (db : DB) (h : String × String) (pipeline : JValue) :
    Except String (List Doc) := do
  db.checkUp
  match pipeline with
  | .arr stages =>
    if stages.all (fun st => match st with | .obj _ => true | _ => false) then
      Except.ok (db.readColl h)
    else Except.error "each pipeline stage must be a document"
  | _ => Except.error "pipeline must be a list"

/-- Collect the field assignments of the `$set` operators of an update
document; any other key raises (unknown modifiers are rejected by the
server, keys without a `$` by pymongo). -/
def collectSets : List (String × JValue) → Except String Doc
  | [] => Except.ok []
  | (k, w) :: rest =>
    if k = "$set" then
      match w with
      | .obj sets =>
        match collectSets rest with
        | Except.ok more => Except.ok (sets ++ more)
        | Except.error e => Except.error e
      | _ => Except.error "Modifiers operate on fields"
    else if charsLeadWith "$".toList k.toList then Except.error ("Unknown modifier: " ++ k)
    else Except.error "update only works with $ operators"

/-- Validate an update document the way pymongo and the server do for
`update_one`/`update_many`: it must be a non-empty mapping whose keys
are update operators; the model executes the `$set` operator (with a
mapping argument) and raises on any other modifier, returning the
fields to set. -/
def validateUpdate (update : JValue) : Except String Doc :=
  match update with
  | .obj [] => Except.error "update cannot be empty"
  | .obj us => collectSets us
  | _ => Except.error "update must be an instance of dict"

/-- Apply a validated `$set` assignment list to a document. -/
def applySet (doc : Doc) (sets : Doc) : Doc :=
  sets.foldl (fun d kv => setFieldAdd d kv.1 kv.2) doc

/-- Modify the first document matching the filter with a `$set`
assignment list, returning `(matched_count, modified_count, documents)`. -/
def updateFirst (ffs sets : Doc) : List Doc → Nat × Nat × List Doc
  | [] => (0, 0, [])
  | d :: ds =>
    if docMatches d ffs then
      let d₂ := applySet d sets
      (1, if docBeq d d₂ then 0 else 1, d₂ :: ds)
    else
      let (m, mo, ds₂) := updateFirst ffs sets ds
      (m, mo, d :: ds₂)

/-- `collection.update_one(filter, update)` (no `upsert` argument, so
never upserting): validates both arguments, modifies the first matching
document, and returns `(matched_count, modified_count, upserted_id)` —
the last always `none` here — and the new state. -/
def collUpdateOne (db : DB) (h : String × String) (filter_criteria update : JValue) :
    Except String ((Nat × Nat × Option JValue) × DB) := do
  db.checkUp
  match filter_criteria with
  | .obj ffs => do
    let sets ← validateUpdate update
    let (m, mo, docs₂) := updateFirst ffs sets (db.readColl h)
    Except.ok ((m, mo, none), db.writeColl h docs₂)
  | _ => Except.error "filter must be an instance of dict"

/-- `collection.update_many(filter, update)`: like `collUpdateOne` but
modifying every matching document; returns
`(matched_count, modified_count)` and the new state. -/
def collUpdateMany (db : DB) (h : String × String) (filter_criteria update : JValue) :
    Except String ((Nat × Nat) × DB) := do
  db.checkUp
  match filter_criteria with
  | .obj ffs => do
    let sets ← validateUpdate update
    let docs := db.readColl h
    let matched := (docs.filter (fun d => docMatches d ffs)).length
    let modified := (docs.filter (fun d =>
      docMatches d ffs && !docBeq d (applySet d sets))).length
    let docs₂ := docs.map (fun d => if docMatches d ffs then applySet d sets else d)
    Except.ok ((matched, modified), db.writeColl h docs₂)
  | _ => Except.error "filter must be an instance of dict"

/-- Remove the first document matching the filter, returning
`(deleted_count, documents)`. -/
def removeFirst (ffs : Doc) : List Doc → Nat × List Doc
  | [] => (0, [])
  | d :: ds =>
    if docMatches d ffs then (1, ds)
    else
      let (n, ds₂) := removeFirst ffs ds
      (n, d :: ds₂)

/-- `collection.delete_one(filter)`: deletes the first matching
document; returns `deleted_count` and the new state. -/
def collDeleteOne (db : DB) (h : String × String) (filter_criteria : JValue) :
    Except String (Nat × DB) := do
  db.checkUp
  match filter_criteria with
  | .obj ffs =>
    let (n, docs₂) := removeFirst ffs (db.readColl h)
    Except.ok (n, db.writeColl h docs₂)
  | _ => Except.error "filter must be an instance of dict"

/-- `collection.delete_many(filter)`: deletes every matching document;
returns `deleted_count` and the new state. -/
def collDeleteMany (db : DB) (h : String × String) (filter_criteria : JValue) :
    Except String (Nat × DB) := do
  db.checkUp
  match filter_criteria with
  | .obj ffs =>
    let docs := db.readColl h
    let deleted := (docs.filter (fun d => docMatches d ffs)).length
    Except.ok (deleted, db.writeColl h (docs.filter (fun d => !docMatches d ffs)))
  | _ => Except.error "filter must be an instance of dict"

/-! ## The HTTP layer

Each Flask handler has the shape

```python
if not authenticate_request():
    return jsonify({'error': 'Unauthorized'}), 401
try:
    data = request.get_json()
    ... required fields, get_collection, operation ...
    return jsonify({...})
except Exception as e:
    return jsonify({'error': str(e)}), 500
```

A request is modelled by the raw `Authorization` header (absent =
`none`; `request.headers.get('Authorization', '')` turns that into `''`)
and the parsed JSON body (`none` models a body `request.get_json()`
raises on: wrong content type or malformed JSON — those exceptions are
raised inside the `try` and so are caught like every other).  A handler
is a function from the request and the database state to the HTTP
response and the new database state.  Exact Python exception texts are
modelled by fixed non-empty message strings; the `try/except` boundary
is the `Except` monad, and the `except` branch builds
`{'error': str(e)}` with status 500 from whatever message the failure
carried. -/

/-- An inbound HTTP request: raw `Authorization` header (if present) and
parsed JSON body (`none` when `request.get_json()` raises). -/
structure HttpRequest where
  authHeader : Option String
  body : Option JValue

/-- An HTTP response: status code and JSON body. -/
structure HttpResponse where
  status : Nat
  body : JValue

/-- The fixed 401 response `jsonify({'error': 'Unauthorized'}), 401`. -/
def unauthorizedResponse : HttpResponse :=
  ⟨401, .obj [("error", .str "Unauthorized")]⟩

/-- The 500 response `jsonify({'error': str(e)}), 500` built by every
`except` branch from the exception's message. -/
def errorResponse (msg : String) : HttpResponse :=
  ⟨500, .obj [("error", .str msg)]⟩

/-- `request.get_json()`: yields the parsed body, or raises (wrong
content type / malformed JSON) with a message the handler catches. -/
def getJson : Option JValue → Except String JValue
  | some v => Except.ok v
  | none => Except.error "Failed to decode JSON object"

/-- Python `data[k]`: `KeyError` on a mapping without the key,
`TypeError` on a non-mapping (e.g. a JSON array or `null` body). -/
def jGet (data : JValue) (k : String) : Except String JValue :=
  match data with
  | .obj fs =>
    match jlookup fs k with
    | some v => Except.ok v
    | none => Except.error ("KeyError: " ++ k)
  | _ => Except.error "object is not subscriptable"

/-- Python `data.get(k, default)`: the default on a mapping without the
key, `AttributeError` on a non-mapping. -/
def jGetD (data : JValue) (k : String) (dflt : JValue) : Except String JValue :=
  match data with
  | .obj fs => Except.ok ((jlookup fs k).getD dflt)
  | _ => Except.error "object has no attribute get"

/-- `client[database][collection]` requires string names (pymongo raises
`TypeError` otherwise); name legality beyond that is not validated. -/
def jAsName : JValue → Except String String
  | .str s => Except.ok s
  | _ => Except.error "name must be an instance of str"

/-- `jsonify(body)`: serializes eagerly, raising `TypeError` on any
ObjectId left in the value. -/
def jsonifyCheck (body : JValue) : Except String JValue :=
  if oidFree body then Except.ok body
  else Except.error "Object of type ObjectId is not JSON serializable"

/-- `cursor.skip(skip)` (line 106): pymongo requires a non-negative int
(`TypeError` on a non-int, `ValueError` on a negative one; a `bool` is
an `int` in Python). -/
def cursorSkip (docs : List Doc) (skip : JValue) : Except String (List Doc) :=
  match pyToInt skip with
  | none => Except.error "skip must be an integer"
  | some n =>
    if n < 0 then Except.error "skip must be greater than or equal to 0"
    else Except.ok (docs.drop n.natAbs)

/-- Lines 108-109: `if limit: cursor = cursor.limit(limit)` — a falsy
`limit` leaves the cursor unlimited; a truthy one must be an int (a
negative limit makes the server return that many documents, modelled by
`Int.natAbs`). -/
def cursorLimit (docs : List Doc) (limit : JValue) : Except String (List Doc) :=
  if jTruthy limit then
    match pyToInt limit with
    | none => Except.error "limit must be an integer"
    | some n => Except.ok (docs.take n.natAbs)
  else Except.ok docs

/-- Lines 113-116 / 143-146: `if '_id' in doc: doc['_id'] = str(doc['_id'])`
— stringify a top-level `_id` field if present. -/
def convertId (doc : Doc) : Doc :=
  match jlookup doc "_id" with
  | some v => setField doc "_id" (.str (pyStr v))
  | none => doc

/-- Wrap the body of a handler: a denied request is answered `401`
before the body is touched; otherwise the `try` body either produces the
200 response body and the new state, or its exception message becomes a
`500` (the state is returned unchanged then — no failing path in the
source mutates the database before raising). -/
def handle (req : HttpRequest) (db : DB)
    (tryBody : Option JValue → DB → Except String (JValue × DB)) :
    HttpResponse × DB :=
  if !authenticate_request (req.authHeader.getD "") then (unauthorizedResponse, db)
  else
    match tryBody req.body db with
    | Except.ok (body, db₂) => (⟨200, body⟩, db₂)
    | Except.error e => (errorResponse e, db)

/-- The `try` body of `insert_one` (lines 49-61). -/
def tryInsertOne (body : Option JValue) (db : DB) : Except String (JValue × DB) := do
  let data ← getJson body
  let database ← jGet data "database" >>= jAsName
  let collection_name ← jGet data "collection" >>= jAsName
  let document ← jGet data "document"
  let collection := get_collection database collection_name
  let (insertedId, db₂) ← collInsertOne db collection document
  let resp ← jsonifyCheck (.obj [("insertedId", .str (pyStr insertedId)),
                                 ("insertedCount", .num 1)])
  Except.ok (resp, db₂)

/-- `insert_one` (lines 43-65): `POST /data/v1/action/insertOne`. -/
def insert_one (req : HttpRequest) (db : DB) : HttpResponse × DB :=
  handle req db tryInsertOne

/-- The `try` body of `insert_many` (lines 73-85). -/
def tryInsertMany (body : Option JValue) (db : DB) : Except String (JValue × DB) := do
  let data ← getJson body
  let database ← jGet data "database" >>= jAsName
  let collection_name ← jGet data "collection" >>= jAsName
  let documents ← jGet data "documents"
  let collection := get_collection database collection_name
  let (insertedIds, db₂) ← collInsertMany db collection documents
  let resp ← jsonifyCheck (.obj
    [("insertedIds", .arr (insertedIds.map (fun i => .str (pyStr i)))),
     ("insertedCount", .num insertedIds.length)])
  Except.ok (resp, db₂)

/-- `insert_many` (lines 67-89): `POST /data/v1/action/insertMany`. -/
def insert_many (req : HttpRequest) (db : DB) : HttpResponse × DB :=
  handle req db tryInsertMany

/-- The `try` body of `find` (lines 97-120): filter defaults to `{}`,
`limit` to `None`, `skip` to `0`; the cursor is skipped, then limited
only when `limit` is truthy; each returned document has a top-level
`_id` stringified.  `cursor.skip` requires a non-negative int,
`cursor.limit` an int (a negative limit makes the server return that
many documents from the start of the skipped cursor, modelled by
`Int.natAbs`). -/
def tryFind (body : Option JValue) (db : DB) : Except String (JValue × DB) := do
  let data ← getJson body
  let database ← jGet data "database" >>= jAsName
  let collection_name ← jGet data "collection" >>= jAsName
  let filter_doc ← jGetD data "filter" (.obj [])
  let limit ← jGetD data "limit" .null
  let skip ← jGetD data "skip" (.num 0)
  let collection := get_collection database collection_name
  let matched ← collFind db collection filter_doc
  let skipped ← cursorSkip matched skip
  let limited ← cursorLimit skipped limit
  let documents := limited.map (fun doc => JValue.obj (convertId doc))
  let resp ← jsonifyCheck (.obj [("documents", .arr documents)])
  Except.ok (resp, db)

/-- `find` (lines 91-124): `POST /data/v1/action/find`. -/
def find (req : HttpRequest) (db : DB) : HttpResponse × DB :=
  handle req db tryFind

/-- The `try` body of `aggregate` (lines 132-150). -/
def tryAggregate (body : Option JValue) (db : DB) : Except String (JValue × DB) := do
  let data ← getJson body
  let database ← jGet data "database" >>= jAsName
  let collection_name ← jGet data "collection" >>= jAsName
  let pipeline ← jGet data "pipeline"
  let collection := get_collection database collection_name
  let results ← collAggregate db collection pipeline
  let documents := results.map (fun doc => JValue.obj (convertId doc))
  let resp ← jsonifyCheck (.obj [("documents", .arr documents)])
  Except.ok (resp, db)

/-- `aggregate` (lines 126-154): `POST /data/v1/action/aggregate`. -/
def aggregate (req : HttpRequest) (db : DB) : HttpResponse × DB :=
  handle req db tryAggregate

/-- The `try` body of `update_one` (lines 162-176): the `upsertedId`
response field is `str(result.upserted_id) if result.upserted_id else
None`, and `upserted_id` is always `None` because the handler never
passes `upsert=True`. -/
def tryUpdateOne (body : Option JValue) (db : DB) : Except String (JValue × DB) := do
  let data ← getJson body
  let database ← jGet data "database" >>= jAsName
  let collection_name ← jGet data "collection" >>= jAsName
  let filter_criteria ← jGetD data "filter" (.obj [])
  let update_doc ← jGet data "update"
  let collection := get_collection database collection_name
  let ((matched, modified, upserted), db₂) ← collUpdateOne db collection filter_criteria update_doc
  let upsertedId : JValue :=
    match upserted with
    | some u => if jTruthy u then .str (pyStr u) else .null
    | none => .null
  let resp ← jsonifyCheck (.obj [("matchedCount", .num matched),
                                 ("modifiedCount", .num modified),
                                 ("upsertedId", upsertedId)])
  Except.ok (resp, db₂)

/-- `update_one` (lines 156-180): `POST /data/v1/action/updateOne`. -/
def update_one (req : HttpRequest) (db : DB) : HttpResponse × DB :=
  handle req db tryUpdateOne

/-- The `try` body of `update_many` (lines 188-201). -/
def tryUpdateMany (body : Option JValue) (db : DB) : Except String (JValue × DB) := do
  let data ← getJson body
  let database ← jGet data "database" >>= jAsName
  let collection_name ← jGet data "collection" >>= jAsName
  let filter_criteria ← jGetD data "filter" (.obj [])
  let update_doc ← jGet data "update"
  let collection := get_collection database collection_name
  let ((matched, modified), db₂) ← collUpdateMany db collection filter_criteria update_doc
  let resp ← jsonifyCheck (.obj [("matchedCount", .num matched),
                                 ("modifiedCount", .num modified)])
  Except.ok (resp, db₂)

/-- `update_many` (lines 182-205): `POST /data/v1/action/updateMany`. -/
def update_many (req : HttpRequest) (db : DB) : HttpResponse × DB :=
  handle req db tryUpdateMany

/-- The `try` body of `delete_one` (lines 213-224). -/
def tryDeleteOne (body : Option JValue) (db : DB) : Except String (JValue × DB) := do
  let data ← getJson body
  let database ← jGet data "database" >>= jAsName
  let collection_name ← jGet data "collection" >>= jAsName
  let filter_criteria ← jGetD data "filter" (.obj [])
  let collection := get_collection database collection_name
  let (deleted, db₂) ← collDeleteOne db collection filter_criteria
  let resp ← jsonifyCheck (.obj [("deletedCount", .num deleted)])
  Except.ok (resp, db₂)

/-- `delete_one` (lines 207-228): `POST /data/v1/action/deleteOne`. -/
def delete_one (req : HttpRequest) (db : DB) : HttpResponse × DB :=
  handle req db tryDeleteOne

/-- The `try` body of `delete_many` (lines 236-247). -/
def tryDeleteMany (body : Option JValue) (db : DB) : Except String (JValue × DB) := do
  let data ← getJson body
  let database ← jGet data "database" >>= jAsName
  let collection_name ← jGet data "collection" >>= jAsName
  let filter_criteria ← jGetD data "filter" (.obj [])
  let collection := get_collection database collection_name
  let (deleted, db₂) ← collDeleteMany db collection filter_criteria
  let resp ← jsonifyCheck (.obj [("deletedCount", .num deleted)])
  Except.ok (resp, db₂)

/-- `delete_many` (lines 230-251): `POST /data/v1/action/deleteMany`. -/
def delete_many (req : HttpRequest) (db : DB) : HttpResponse × DB :=
  handle req db tryDeleteMany

/-- `health` (lines 253-260): `GET /health`.  No authentication check of
any kind — the request parameter is unused; `client.admin.command('ping')`
raises exactly when the modelled database is failing. -/
def health (_req : HttpRequest) (db : DB) : HttpResponse × DB :=
  match db.failure with
  | none =>
    (⟨200, .obj [("status", .str "healthy"),
                 ("message", .str "DocumentDB API server is running")]⟩, db)
  | some e =>
    (⟨500, .obj [("status", .str "unhealthy"), ("error", .str e)]⟩, db)

/-- Database states whose failure message, if set, is non-empty: the
message models `str(e)` of a raised driver exception, which carries text
for every error pymongo reports. -/
def DB.failMsgOk (db : DB) : Prop := ∀ m, db.failure = some m → m ≠ ""

/-- Every error this computation can raise carries a non-empty message. -/
def ErrOk {α : Type} (x : Except String α) : Prop :=
  ∀ e, x = Except.error e → e ≠ ""

/-- Every successful response body of this computation satisfies `P`. -/
def OkP (P : JValue → Prop) (x : Except String (JValue × DB)) : Prop :=
  ∀ v db₂, x = Except.ok (v, db₂) → P v

/-- The response-document property claimed for `find`/`aggregate`
results: wherever a top-level `_id` field is present, it is a string. -/
def IdRendered (v : JValue) : Prop :=
  ∀ fs, v = JValue.obj fs → ∀ x, jlookup fs "_id" = some x → ∃ s, x = JValue.str s

/-! ## Helper lemmas -/

/-- `charsLeadWith ps cs` holds exactly when `cs` extends `ps`. -/
theorem charsLeadWith_iff (ps cs : List Char) :
    charsLeadWith ps cs = true ↔ ∃ t, cs = ps ++ t := by
  induction ps generalizing cs with
  | nil => simp [charsLeadWith]
  | cons p ps ih =>
    cases cs with
    | nil => simp [charsLeadWith]
    | cons c cs =>
      simp only [charsLeadWith, Bool.and_eq_true, beq_iff_eq, ih, List.cons_append,
        List.cons.injEq]
      constructor
      · rintro ⟨rfl, t, rfl⟩
        exact ⟨t, rfl, rfl⟩
      · rintro ⟨t, rfl, rfl⟩
        exact ⟨rfl, t, rfl⟩

/-- Splitting at the first colon decomposes the byte list into a
colon-free part, the colon, and the rest. -/
theorem splitFirstColon_eq_some (bs : List Nat) :
    ∀ u p, splitFirstColon bs = some (u, p) → bs = u ++ 58 :: p ∧ 58 ∉ u := by
  induction bs with
  | nil => intro u p h; simp [splitFirstColon] at h
  | cons b rest ih =>
    intro u p h
    by_cases hb : b = 58
    · subst hb
      simp only [splitFirstColon, if_pos rfl, Option.some.injEq, Prod.mk.injEq] at h
      obtain ⟨rfl, rfl⟩ := h
      exact ⟨rfl, by simp⟩
    · simp only [splitFirstColon, if_neg hb] at h
      cases hsp : splitFirstColon rest with
      | none => rw [hsp] at h; cases h
      | some up =>
        obtain ⟨u₂, p₂⟩ := up
        rw [hsp] at h
        simp only [Option.some.injEq, Prod.mk.injEq] at h
        obtain ⟨rfl, rfl⟩ := h
        obtain ⟨hrest, hnotin⟩ := ih u₂ p₂ hsp
        subst hrest
        refine ⟨rfl, ?_⟩
        intro hmem
        rcases List.mem_cons.mp hmem with h58 | hmem₂
        · exact hb h58.symm
        · exact hnotin hmem₂

/-- A colon-free part followed by a colon splits back. -/
theorem splitFirstColon_append (u p : List Nat) (h : 58 ∉ u) :
    splitFirstColon (u ++ 58 :: p) = some (u, p) := by
  induction u with
  | nil => simp [splitFirstColon]
  | cons b u ih =>
    have hb : b ≠ 58 := fun hb => h (hb ▸ List.mem_cons_self b u)
    have hu : (58 : Nat) ∉ u := fun hm => h (List.mem_cons_of_mem b hm)
    simp [splitFirstColon, hb, ih hu]

/-- When the header extends `"Basic "`, the authenticator is the decode,
split and compare of the remainder. -/
theorem authenticate_eq_of_lead (h : String) (t : List Char)
    (ht : h.toList = "Basic ".toList ++ t) :
    authenticate_request h =
      (match b64decode t with
       | none => false
       | some bs =>
         match splitFirstColon bs with
         | none => false
         | some (username, password) => username == USERNAME && password == PASSWORD) := by
  have hcl : charsLeadWith "Basic ".toList h.toList = true :=
    (charsLeadWith_iff _ _).mpr ⟨t, ht⟩
  have hdrop : h.toList.drop 6 = t := by
    rw [ht, show (6 : Nat) = ("Basic ".toList).length from rfl, List.drop_left]
  unfold authenticate_request
  rw [hcl, hdrop]
  simp

/-! ## C1 — the authenticator's accept set -/

/-- C1 (amended): for every `Authorization` header string, the
authenticator returns allow iff the header is `"Basic "` followed by a
payload that Python's lenient base64 decoder accepts and whose decoded
bytes consist of the configured username, a colon (the *first* colon of
the decoded credentials), and the configured password.  Every other
header yields deny, and no header raises (the embedding is a total
function into `Bool`). -/
theorem c1_authenticate_iff (h : String) :
    authenticate_request h = true ↔
      ∃ rest, h.toList = "Basic ".toList ++ rest ∧
        ∃ u p, b64decode rest = some (u ++ 58 :: p) ∧ 58 ∉ u ∧
          u = strBytes "testuser" ∧ p = strBytes "testpass" := by
  by_cases hcl : charsLeadWith "Basic ".toList h.toList = true
  case neg =>
    have hfalse : authenticate_request h = false := by
      unfold authenticate_request
      rw [Bool.not_eq_true] at hcl
      rw [hcl]
      rfl
    rw [hfalse]
    simp only [Bool.false_eq_true, false_iff]
    rintro ⟨rest, hr, -⟩
    exact hcl ((charsLeadWith_iff _ _).mpr ⟨rest, hr⟩)
  case pos =>
    obtain ⟨t, ht⟩ := (charsLeadWith_iff _ _).mp hcl
    rw [authenticate_eq_of_lead h t ht]
    have huniq : ∀ rest, h.toList = "Basic ".toList ++ rest → rest = t := by
      intro rest hr
      exact (List.append_cancel_left (hr.symm.trans ht))
    cases hb : b64decode t with
    | none =>
      simp only [Bool.false_eq_true, false_iff]
      rintro ⟨rest, hr, u, p, hdec, -⟩
      rw [huniq rest hr, hb] at hdec
      cases hdec
    | some bs =>
      simp only
      cases hsp : splitFirstColon bs with
      | none =>
        simp only [Bool.false_eq_true, false_iff]
        rintro ⟨rest, hr, u, p, hdec, hnotin, -⟩
        rw [huniq rest hr, hb] at hdec
        have hbs : bs = u ++ 58 :: p := by injection hdec
        rw [hbs, splitFirstColon_append u p hnotin] at hsp
        cases hsp
      | some up =>
        obtain ⟨u₀, p₀⟩ := up
        simp only [Bool.and_eq_true, beq_iff_eq]
        constructor
        · rintro ⟨rfl, rfl⟩
          obtain ⟨hbs, hnotin⟩ := splitFirstColon_eq_some bs _ _ hsp
          refine ⟨t, ht, USERNAME, PASSWORD, ?_, hnotin, rfl, rfl⟩
          rw [hb, hbs]
        · rintro ⟨rest, hr, u, p, hdec, hnotin, hu, hp⟩
          rw [huniq rest hr, hb] at hdec
          have hbs : bs = u ++ 58 :: p := by injection hdec
          rw [hbs, splitFirstColon_append u p hnotin] at hsp
          injection hsp with hsp₂
          have h₁ : u = u₀ := congrArg Prod.fst hsp₂
          have h₂ : p = p₀ := congrArg Prod.snd hsp₂
          constructor
          · rw [← h₁, hu]; rfl
          · rw [← h₂, hp]; rfl

/-- C1, the claim as frozen, is false on the code: a header whose payload
contains a space is *not* valid base64, yet the authenticator allows it,
because `base64.b64decode` discards characters outside the base64
alphabet before decoding. -/
theorem c1_counterexample :
    authenticate_request "Basic dGVzdHVzZXI6 dGVzdHBhc3M=" = true ∧
    isStrictBase64 "dGVzdHVzZXI6 dGVzdHBhc3M=" = false := by decide

/-! ## C2 and C9 — the authentication gate -/

/-- C2: on every action endpoint, a denied request (header absent,
malformed, or wrong credentials — all the cases where
`authenticate_request` returns `False` on the header value, with an
absent header read as `''`) is answered with HTTP 401 and body
`{error: "Unauthorized"}`, and the database state is returned untouched.
The right-hand sides do not mention the database at all, so no database
operation of any kind is performed. -/
theorem c2_unauthorized_all_actions (req : HttpRequest) (db : DB)
    (hauth : authenticate_request (req.authHeader.getD "") = false) :
    insert_one req db = (unauthorizedResponse, db) ∧
    insert_many req db = (unauthorizedResponse, db) ∧
    find req db = (unauthorizedResponse, db) ∧
    aggregate req db = (unauthorizedResponse, db) ∧
    update_one req db = (unauthorizedResponse, db) ∧
    update_many req db = (unauthorizedResponse, db) ∧
    delete_one req db = (unauthorizedResponse, db) ∧
    delete_many req db = (unauthorizedResponse, db) := by
  unfold insert_one insert_many find aggregate update_one update_many delete_one delete_many handle
  rw [hauth]
  simp

/-- Witness for `c2_unauthorized_all_actions`: a request with no
`Authorization` header at all is denied on `insertOne`. -/
theorem c2_witness :
    authenticate_request ((HttpRequest.mk none none).authHeader.getD "") = false ∧
    insert_one ⟨none, none⟩ ⟨[], 0, none⟩ = (unauthorizedResponse, ⟨[], 0, none⟩) :=
  ⟨by decide, (c2_unauthorized_all_actions ⟨none, none⟩ ⟨[], 0, none⟩ (by decide)).1⟩

/-- C9: on every action endpoint the authentication check comes before
the body is read: with failing credentials the outcome is the same for
*any* two bodies (present, absent, malformed, or missing required
fields), and the status on a body-less request is 401 — the
unauthorized outcome takes precedence over every parse failure. -/
theorem c9_auth_precedes_body (hdr : Option String) (db : DB) (b₁ b₂ : Option JValue)
    (hauth : authenticate_request (hdr.getD "") = false) :
    (insert_one ⟨hdr, b₁⟩ db = insert_one ⟨hdr, b₂⟩ db ∧
      (insert_one ⟨hdr, none⟩ db).1.status = 401) ∧
    (insert_many ⟨hdr, b₁⟩ db = insert_many ⟨hdr, b₂⟩ db ∧
      (insert_many ⟨hdr, none⟩ db).1.status = 401) ∧
    (find ⟨hdr, b₁⟩ db = find ⟨hdr, b₂⟩ db ∧
      (find ⟨hdr, none⟩ db).1.status = 401) ∧
    (aggregate ⟨hdr, b₁⟩ db = aggregate ⟨hdr, b₂⟩ db ∧
      (aggregate ⟨hdr, none⟩ db).1.status = 401) ∧
    (update_one ⟨hdr, b₁⟩ db = update_one ⟨hdr, b₂⟩ db ∧
      (update_one ⟨hdr, none⟩ db).1.status = 401) ∧
    (update_many ⟨hdr, b₁⟩ db = update_many ⟨hdr, b₂⟩ db ∧
      (update_many ⟨hdr, none⟩ db).1.status = 401) ∧
    (delete_one ⟨hdr, b₁⟩ db = delete_one ⟨hdr, b₂⟩ db ∧
      (delete_one ⟨hdr, none⟩ db).1.status = 401) ∧
    (delete_many ⟨hdr, b₁⟩ db = delete_many ⟨hdr, b₂⟩ db ∧
      (delete_many ⟨hdr, none⟩ db).1.status = 401) := by
  unfold insert_one insert_many find aggregate update_one update_many delete_one delete_many handle
  rw [hauth]
  simp [unauthorizedResponse]

/-- Witness for `c9_auth_precedes_body`: a header that is not valid
base64 is denied on `find` identically for an absent body and an empty
JSON object body. -/
theorem c9_witness :
    authenticate_request ((some "Basic !!").getD "") = false ∧
    find ⟨some "Basic !!", none⟩ ⟨[], 0, none⟩ =
      find ⟨some "Basic !!", some (.obj [])⟩ ⟨[], 0, none⟩ ∧
    (find ⟨some "Basic !!", none⟩ ⟨[], 0, none⟩).1.status = 401 :=
  ⟨by decide,
   ((c9_auth_precedes_body (some "Basic !!") ⟨[], 0, none⟩ none (some (.obj []))
       (by decide)).2.2.1.1),
   ((c9_auth_precedes_body (some "Basic !!") ⟨[], 0, none⟩ none (some (.obj []))
       (by decide)).2.2.1.2)⟩

/-! ## C8 — the health endpoint -/

/-- C8: the health endpoint performs no credential check — its result is
the same for every request, whatever the `Authorization` header; on a
healthy database (the ping succeeds) it returns 200 with
`{status: 'healthy', message: <static message>}`, and on a failing
database it returns 500 with `{status: 'unhealthy', error: <message>}`
carrying the failure's textual message. -/
theorem c8_health_no_auth (req₁ req₂ : HttpRequest) (db : DB) :
    health req₁ db = health req₂ db ∧
    (db.failure = none →
      health req₁ db = (⟨200, .obj [("status", .str "healthy"),
        ("message", .str "DocumentDB API server is running")]⟩, db)) ∧
    (∀ e, db.failure = some e →
      health req₁ db = (⟨500, .obj [("status", .str "unhealthy"),
        ("error", .str e)]⟩, db)) := by
  refine ⟨rfl, ?_, ?_⟩
  · intro hf
    unfold health
    rw [hf]
  · intro e hf
    unfold health
    rw [hf]

/-- Witness for `c8_health_no_auth`: health answers a request carrying a
wrong-credentials header the same as one carrying no header, reporting
healthy on a live database and unhealthy with the message on a failing
one. -/
theorem c8_witness :
    health ⟨some "Basic nope", none⟩ ⟨[], 0, none⟩ = health ⟨none, none⟩ ⟨[], 0, none⟩ ∧
    health ⟨some "Basic nope", none⟩ ⟨[], 0, none⟩ =
      (⟨200, .obj [("status", .str "healthy"),
        ("message", .str "DocumentDB API server is running")]⟩, ⟨[], 0, none⟩) ∧
    health ⟨none, none⟩ ⟨[], 0, some "connection refused"⟩ =
      (⟨500, .obj [("status", .str "unhealthy"),
        ("error", .str "connection refused")]⟩, ⟨[], 0, some "connection refused"⟩) :=
  ⟨(c8_health_no_auth ⟨some "Basic nope", none⟩ ⟨none, none⟩ ⟨[], 0, none⟩).1,
   (c8_health_no_auth ⟨some "Basic nope", none⟩ ⟨none, none⟩ ⟨[], 0, none⟩).2.1 rfl,
   (c8_health_no_auth ⟨none, none⟩ ⟨none, none⟩
      ⟨[], 0, some "connection refused"⟩).2.2 "connection refused" rfl⟩

/-! ## Exception-propagation machinery

The `try` body of every handler is a chain of `Except`-monad binds; an
error raised anywhere surfaces unchanged at the handler boundary.  The
lemmas here propagate two facts through those chains: every error
message is non-empty (`ErrOk`), and every success body satisfies a given
property (`OkP`), in particular serializability, since each chain ends
in `jsonifyCheck`. -/

theorem errOk_bind {α β : Type} {x : Except String α} {f : α → Except String β}
    (hx : ErrOk x) (hf : ∀ a, ErrOk (f a)) : ErrOk (x >>= f) := by
  intro e he
  cases hxe : x with
  | error e₁ =>
    rw [hxe] at he
    simp only [Bind.bind, Except.bind, Except.error.injEq] at he
    exact he ▸ hx e₁ hxe
  | ok a =>
    rw [hxe] at he
    simp only [Bind.bind, Except.bind] at he
    exact hf a e he

theorem okP_bind {α : Type} {P : JValue → Prop} {x : Except String α}
    {f : α → Except String (JValue × DB)} (hf : ∀ a, OkP P (f a)) :
    OkP P (x >>= f) := by
  intro v db₂ hv
  cases hxe : x with
  | error e₁ =>
    rw [hxe] at hv
    simp only [Bind.bind, Except.bind] at hv
    cases hv
  | ok a =>
    rw [hxe] at hv
    simp only [Bind.bind, Except.bind] at hv
    exact hf a v db₂ hv

/-- The tail of every handler chain: the response body has passed
`jsonifyCheck`, so any property implied by serializability holds of it. -/
theorem okP_jsonify {P : JValue → Prop} (b : JValue) (db₂ : DB)
    (hb : oidFree b = true → P b) :
    OkP P (jsonifyCheck b >>= fun resp => Except.ok (resp, db₂)) := by
  intro v dbx hv
  unfold jsonifyCheck at hv
  by_cases hfree : oidFree b = true
  · rw [if_pos hfree] at hv
    simp only [Bind.bind, Except.bind, Except.ok.injEq, Prod.mk.injEq] at hv
    obtain ⟨rfl, -⟩ := hv
    exact hb hfree
  · rw [if_neg hfree] at hv
    simp only [Bind.bind, Except.bind] at hv
    cases hv

/-- A string extending a non-empty string is non-empty. -/
theorem append_left_ne_empty (s t : String) (hs : s ≠ "") : s ++ t ≠ "" := by
  intro hc
  apply hs
  have h₂ : s.data ++ t.data = ([] : List Char) := congrArg String.data hc
  obtain ⟨h₃, -⟩ := List.append_eq_nil.mp h₂
  cases s
  cases h₃
  rfl

theorem errOk_getJson (b : Option JValue) : ErrOk (getJson b) := by
  intro e he
  cases b with
  | none => cases he; decide
  | some v => cases he

theorem errOk_jGet (data : JValue) (k : String) : ErrOk (jGet data k) := by
  intro e he
  unfold jGet at he
  repeat' split at he
  all_goals first
    | (cases he; done)
    | (cases he; decide)
    | (cases he; exact append_left_ne_empty "KeyError: " k (by decide))

theorem errOk_jGetD (data : JValue) (k : String) (dflt : JValue) :
    ErrOk (jGetD data k dflt) := by
  intro e he
  unfold jGetD at he
  cases data
  case obj fs => cases he
  all_goals (cases he; decide)

theorem errOk_jAsName (v : JValue) : ErrOk (jAsName v) := by
  intro e he
  cases v
  case str s => cases he
  all_goals (cases he; decide)

theorem errOk_jsonifyCheck (b : JValue) : ErrOk (jsonifyCheck b) := by
  intro e he
  unfold jsonifyCheck at he
  split at he
  · cases he
  · cases he; decide

theorem errOk_checkUp (db : DB) (hdb : db.failMsgOk) : ErrOk db.checkUp := by
  intro e he
  unfold DB.checkUp at he
  cases hf : db.failure with
  | some m => rw [hf] at he; cases he; exact hdb _ hf
  | none => rw [hf] at he; cases he

theorem errOk_collectSets (us : List (String × JValue)) : ErrOk (collectSets us) := by
  induction us with
  | nil => intro e he; cases he
  | cons kv rest ih =>
    obtain ⟨k, w⟩ := kv
    intro e he
    unfold collectSets at he
    repeat' split at he
    all_goals first
      | (cases he; done)
      | (cases he; decide)
      | (cases he; exact append_left_ne_empty "Unknown modifier: " k (by decide))
      | (rename_i heq; cases he; exact ih _ heq)

theorem errOk_validateUpdate (u : JValue) : ErrOk (validateUpdate u) := by
  intro e he
  unfold validateUpdate at he
  cases u
  case obj us =>
    cases us with
    | nil => cases he; decide
    | cons kv rest => exact errOk_collectSets (kv :: rest) e he
  all_goals (cases he; decide)

theorem errOk_insertManyGo (hc : String × String) (db : DB) (stored : List Doc)
    (ids : List JValue) (ds : List JValue) :
    ErrOk (insertManyGo hc db stored ids ds) := by
  induction ds generalizing db stored ids with
  | nil => intro e he; cases he
  | cons d rest ih =>
    intro e he
    unfold insertManyGo at he
    repeat' split at he
    all_goals first
      | (cases he; done)
      | (cases he; decide)
      | (exact ih _ _ _ e he)

theorem errOk_collInsertOne (db : DB) (hc : String × String) (doc : JValue)
    (hdb : db.failMsgOk) : ErrOk (collInsertOne db hc doc) := by
  unfold collInsertOne
  refine errOk_bind (errOk_checkUp db hdb) (fun _ => ?_)
  intro e he
  cases doc
  case obj fields =>
    repeat' split at he
    all_goals cases he
  all_goals (cases he; decide)

theorem errOk_collInsertMany (db : DB) (hc : String × String) (documents : JValue)
    (hdb : db.failMsgOk) : ErrOk (collInsertMany db hc documents) := by
  unfold collInsertMany
  refine errOk_bind (errOk_checkUp db hdb) (fun _ => ?_)
  intro e he
  repeat' split at he
  all_goals first
    | (cases he; done)
    | (cases he; decide)
    | (exact errOk_insertManyGo hc db [] [] _ e he)

theorem errOk_collFind (db : DB) (hc : String × String) (filter_doc : JValue)
    (hdb : db.failMsgOk) : ErrOk (collFind db hc filter_doc) := by
  unfold collFind
  refine errOk_bind (errOk_checkUp db hdb) (fun _ => ?_)
  intro e he
  cases filter_doc
  case obj ffs => cases he
  case null => cases he
  all_goals (cases he; decide)

theorem errOk_collAggregate (db : DB) (hc : String × String) (pipeline : JValue)
    (hdb : db.failMsgOk) : ErrOk (collAggregate db hc pipeline) := by
  unfold collAggregate
  refine errOk_bind (errOk_checkUp db hdb) (fun _ => ?_)
  intro e he
  repeat' split at he
  all_goals first
    | (cases he; done)
    | (cases he; decide)

theorem errOk_collUpdateOne (db : DB) (hc : String × String) (fc u : JValue)
    (hdb : db.failMsgOk) : ErrOk (collUpdateOne db hc fc u) := by
  unfold collUpdateOne
  refine errOk_bind (errOk_checkUp db hdb) (fun _ => ?_)
  cases fc
  case obj ffs =>
    refine errOk_bind (errOk_validateUpdate u) (fun sets => ?_)
    intro e he
    repeat' split at he
    all_goals cases he
  all_goals (intro e he; cases he; decide)

theorem errOk_collUpdateMany (db : DB) (hc : String × String) (fc u : JValue)
    (hdb : db.failMsgOk) : ErrOk (collUpdateMany db hc fc u) := by
  unfold collUpdateMany
  refine errOk_bind (errOk_checkUp db hdb) (fun _ => ?_)
  cases fc
  case obj ffs =>
    refine errOk_bind (errOk_validateUpdate u) (fun sets => ?_)
    intro e he
    cases he
  all_goals (intro e he; cases he; decide)

theorem errOk_collDeleteOne (db : DB) (hc : String × String) (fc : JValue)
    (hdb : db.failMsgOk) : ErrOk (collDeleteOne db hc fc) := by
  unfold collDeleteOne
  refine errOk_bind (errOk_checkUp db hdb) (fun _ => ?_)
  intro e he
  cases fc
  case obj ffs =>
    repeat' split at he
    all_goals cases he
  all_goals (cases he; decide)

theorem errOk_collDeleteMany (db : DB) (hc : String × String) (fc : JValue)
    (hdb : db.failMsgOk) : ErrOk (collDeleteMany db hc fc) := by
  unfold collDeleteMany
  refine errOk_bind (errOk_checkUp db hdb) (fun _ => ?_)
  intro e he
  cases fc
  case obj ffs => cases he
  all_goals (cases he; decide)

theorem errOk_cursorSkip (docs : List Doc) (skip : JValue) :
    ErrOk (cursorSkip docs skip) := by
  intro e he
  unfold cursorSkip at he
  repeat' split at he
  all_goals first
    | (cases he; done)
    | (cases he; decide)

theorem errOk_cursorLimit (docs : List Doc) (limit : JValue) :
    ErrOk (cursorLimit docs limit) := by
  intro e he
  unfold cursorLimit at he
  repeat' split at he
  all_goals first
    | (cases he; done)
    | (cases he; decide)

theorem errOk_tryInsertOne (body : Option JValue) (db : DB) (hdb : db.failMsgOk) :
    ErrOk (tryInsertOne body db) := by
  unfold tryInsertOne
  refine errOk_bind (errOk_getJson body) (fun data => ?_)
  refine errOk_bind (errOk_bind (errOk_jGet data "database") errOk_jAsName) (fun database => ?_)
  refine errOk_bind (errOk_bind (errOk_jGet data "collection") errOk_jAsName) (fun cname => ?_)
  refine errOk_bind (errOk_jGet data "document") (fun document => ?_)
  refine errOk_bind (errOk_collInsertOne db _ document hdb) (fun p => ?_)
  obtain ⟨insertedId, db₂⟩ := p
  refine errOk_bind (errOk_jsonifyCheck _) (fun resp => ?_)
  intro e he
  cases he

theorem errOk_tryInsertMany (body : Option JValue) (db : DB) (hdb : db.failMsgOk) :
    ErrOk (tryInsertMany body db) := by
  unfold tryInsertMany
  refine errOk_bind (errOk_getJson body) (fun data => ?_)
  refine errOk_bind (errOk_bind (errOk_jGet data "database") errOk_jAsName) (fun database => ?_)
  refine errOk_bind (errOk_bind (errOk_jGet data "collection") errOk_jAsName) (fun cname => ?_)
  refine errOk_bind (errOk_jGet data "documents") (fun documents => ?_)
  refine errOk_bind (errOk_collInsertMany db _ documents hdb) (fun p => ?_)
  obtain ⟨insertedIds, db₂⟩ := p
  refine errOk_bind (errOk_jsonifyCheck _) (fun resp => ?_)
  intro e he
  cases he

theorem errOk_tryFind (body : Option JValue) (db : DB) (hdb : db.failMsgOk) :
    ErrOk (tryFind body db) := by
  unfold tryFind
  refine errOk_bind (errOk_getJson body) (fun data => ?_)
  refine errOk_bind (errOk_bind (errOk_jGet data "database") errOk_jAsName) (fun database => ?_)
  refine errOk_bind (errOk_bind (errOk_jGet data "collection") errOk_jAsName) (fun cname => ?_)
  refine errOk_bind (errOk_jGetD data "filter" (.obj [])) (fun filter_doc => ?_)
  refine errOk_bind (errOk_jGetD data "limit" .null) (fun limit => ?_)
  refine errOk_bind (errOk_jGetD data "skip" (.num 0)) (fun skip => ?_)
  refine errOk_bind (errOk_collFind db _ filter_doc hdb) (fun matched => ?_)
  refine errOk_bind (errOk_cursorSkip matched skip) (fun skipped => ?_)
  refine errOk_bind (errOk_cursorLimit skipped limit) (fun limited => ?_)
  refine errOk_bind (errOk_jsonifyCheck _) (fun resp => ?_)
  intro e he
  cases he

theorem errOk_tryAggregate (body : Option JValue) (db : DB) (hdb : db.failMsgOk) :
    ErrOk (tryAggregate body db) := by
  unfold tryAggregate
  refine errOk_bind (errOk_getJson body) (fun data => ?_)
  refine errOk_bind (errOk_bind (errOk_jGet data "database") errOk_jAsName) (fun database => ?_)
  refine errOk_bind (errOk_bind (errOk_jGet data "collection") errOk_jAsName) (fun cname => ?_)
  refine errOk_bind (errOk_jGet data "pipeline") (fun pipeline => ?_)
  refine errOk_bind (errOk_collAggregate db _ pipeline hdb) (fun results => ?_)
  refine errOk_bind (errOk_jsonifyCheck _) (fun resp => ?_)
  intro e he
  cases he

theorem errOk_tryUpdateOne (body : Option JValue) (db : DB) (hdb : db.failMsgOk) :
    ErrOk (tryUpdateOne body db) := by
  unfold tryUpdateOne
  refine errOk_bind (errOk_getJson body) (fun data => ?_)
  refine errOk_bind (errOk_bind (errOk_jGet data "database") errOk_jAsName) (fun database => ?_)
  refine errOk_bind (errOk_bind (errOk_jGet data "collection") errOk_jAsName) (fun cname => ?_)
  refine errOk_bind (errOk_jGetD data "filter" (.obj [])) (fun filter_criteria => ?_)
  refine errOk_bind (errOk_jGet data "update") (fun update_doc => ?_)
  refine errOk_bind (errOk_collUpdateOne db _ filter_criteria update_doc hdb) (fun p => ?_)
  obtain ⟨⟨matched, modified, upserted⟩, db₂⟩ := p
  refine errOk_bind (errOk_jsonifyCheck _) (fun resp => ?_)
  intro e he
  cases he

theorem errOk_tryUpdateMany (body : Option JValue) (db : DB) (hdb : db.failMsgOk) :
    ErrOk (tryUpdateMany body db) := by
  unfold tryUpdateMany
  refine errOk_bind (errOk_getJson body) (fun data => ?_)
  refine errOk_bind (errOk_bind (errOk_jGet data "database") errOk_jAsName) (fun database => ?_)
  refine errOk_bind (errOk_bind (errOk_jGet data "collection") errOk_jAsName) (fun cname => ?_)
  refine errOk_bind (errOk_jGetD data "filter" (.obj [])) (fun filter_criteria => ?_)
  refine errOk_bind (errOk_jGet data "update") (fun update_doc => ?_)
  refine errOk_bind (errOk_collUpdateMany db _ filter_criteria update_doc hdb) (fun p => ?_)
  obtain ⟨⟨matched, modified⟩, db₂⟩ := p
  refine errOk_bind (errOk_jsonifyCheck _) (fun resp => ?_)
  intro e he
  cases he

theorem errOk_tryDeleteOne (body : Option JValue) (db : DB) (hdb : db.failMsgOk) :
    ErrOk (tryDeleteOne body db) := by
  unfold tryDeleteOne
  refine errOk_bind (errOk_getJson body) (fun data => ?_)
  refine errOk_bind (errOk_bind (errOk_jGet data "database") errOk_jAsName) (fun database => ?_)
  refine errOk_bind (errOk_bind (errOk_jGet data "collection") errOk_jAsName) (fun cname => ?_)
  refine errOk_bind (errOk_jGetD data "filter" (.obj [])) (fun filter_criteria => ?_)
  refine errOk_bind (errOk_collDeleteOne db _ filter_criteria hdb) (fun p => ?_)
  obtain ⟨deleted, db₂⟩ := p
  refine errOk_bind (errOk_jsonifyCheck _) (fun resp => ?_)
  intro e he
  cases he

theorem errOk_tryDeleteMany (body : Option JValue) (db : DB) (hdb : db.failMsgOk) :
    ErrOk (tryDeleteMany body db) := by
  unfold tryDeleteMany
  refine errOk_bind (errOk_getJson body) (fun data => ?_)
  refine errOk_bind (errOk_bind (errOk_jGet data "database") errOk_jAsName) (fun database => ?_)
  refine errOk_bind (errOk_bind (errOk_jGet data "collection") errOk_jAsName) (fun cname => ?_)
  refine errOk_bind (errOk_jGetD data "filter" (.obj [])) (fun filter_criteria => ?_)
  refine errOk_bind (errOk_collDeleteMany db _ filter_criteria hdb) (fun p => ?_)
  obtain ⟨deleted, db₂⟩ := p
  refine errOk_bind (errOk_jsonifyCheck _) (fun resp => ?_)
  intro e he
  cases he

/-- An authenticated request to any handler either succeeds with status
200 or fails with a 500 `errorResponse` carrying the try body's message
— which is non-empty whenever the try body's errors are. -/
theorem handle_ok_or_500 (req : HttpRequest) (db : DB)
    (tryB : Option JValue → DB → Except String (JValue × DB))
    (hauth : authenticate_request (req.authHeader.getD "") = true)
    (htry : ErrOk (tryB req.body db)) :
    (handle req db tryB).1.status = 200 ∨
      ∃ m, (handle req db tryB).1 = errorResponse m ∧ m ≠ "" := by
  unfold handle
  rw [hauth]
  cases hres : tryB req.body db with
  | ok p =>
    obtain ⟨v, db₂⟩ := p
    exact Or.inl rfl
  | error e =>
    exact Or.inr ⟨e, rfl, htry e hres⟩

/-- Inversion: a handler that returned status 200 did so through its
`try` body, whose success value is the response body and the new state. -/
theorem handle_200 (req : HttpRequest) (db : DB)
    (tryB : Option JValue → DB → Except String (JValue × DB)) (resp : HttpResponse) (db₂ : DB)
    (h : handle req db tryB = (resp, db₂)) (hs : resp.status = 200) :
    tryB req.body db = Except.ok (resp.body, db₂) := by
  unfold handle at h
  by_cases hauth : authenticate_request (req.authHeader.getD "") = true
  · rw [hauth] at h
    cases hres : tryB req.body db with
    | ok p =>
      obtain ⟨v, db₃⟩ := p
      rw [hres] at h
      have h₂ : ((⟨200, v⟩ : HttpResponse), db₃) = (resp, db₂) := h
      injection h₂ with hr hd
      subst hr
      subst hd
      rfl
    | error e =>
      rw [hres] at h
      have h₂ : (errorResponse e, db) = (resp, db₂) := h
      injection h₂ with hr hd
      rw [← hr] at hs
      simp [errorResponse] at hs
  · rw [Bool.not_eq_true] at hauth
    rw [hauth] at h
    have h₂ : (unauthorizedResponse, db) = (resp, db₂) := h
    injection h₂ with hr hd
    rw [← hr] at hs
    simp [unauthorizedResponse] at hs

/-- Inversion for `jsonifyCheck`: success returns the body unchanged,
and it is serializable. -/
theorem jsonifyCheck_ok (b v : JValue) (h : jsonifyCheck b = Except.ok v) :
    v = b ∧ oidFree b = true := by
  unfold jsonifyCheck at h
  split at h
  · cases h
    constructor
    · rfl
    · assumption
  · cases h

/-! ## C3 — uniform error reporting -/

/-- C3: for every authenticated request to any action endpoint (over a
database whose failure messages carry text, as real driver exceptions
do), the handler either returns HTTP 200, or — for *any* exception in
body parsing or database execution — returns HTTP 500 with body
`{error: m}` where `m` is the raised message, surfaced verbatim by
`errorResponse`, and `m` is non-empty. -/
theorem c3_catch_all_500 (req : HttpRequest) (db : DB) (hdb : db.failMsgOk)
    (hauth : authenticate_request (req.authHeader.getD "") = true) :
    ((insert_one req db).1.status = 200 ∨
      ∃ m, (insert_one req db).1 = errorResponse m ∧ m ≠ "") ∧
    ((insert_many req db).1.status = 200 ∨
      ∃ m, (insert_many req db).1 = errorResponse m ∧ m ≠ "") ∧
    ((find req db).1.status = 200 ∨
      ∃ m, (find req db).1 = errorResponse m ∧ m ≠ "") ∧
    ((aggregate req db).1.status = 200 ∨
      ∃ m, (aggregate req db).1 = errorResponse m ∧ m ≠ "") ∧
    ((update_one req db).1.status = 200 ∨
      ∃ m, (update_one req db).1 = errorResponse m ∧ m ≠ "") ∧
    ((update_many req db).1.status = 200 ∨
      ∃ m, (update_many req db).1 = errorResponse m ∧ m ≠ "") ∧
    ((delete_one req db).1.status = 200 ∨
      ∃ m, (delete_one req db).1 = errorResponse m ∧ m ≠ "") ∧
    ((delete_many req db).1.status = 200 ∨
      ∃ m, (delete_many req db).1 = errorResponse m ∧ m ≠ "") :=
  ⟨handle_ok_or_500 req db tryInsertOne hauth (errOk_tryInsertOne req.body db hdb),
   handle_ok_or_500 req db tryInsertMany hauth (errOk_tryInsertMany req.body db hdb),
   handle_ok_or_500 req db tryFind hauth (errOk_tryFind req.body db hdb),
   handle_ok_or_500 req db tryAggregate hauth (errOk_tryAggregate req.body db hdb),
   handle_ok_or_500 req db tryUpdateOne hauth (errOk_tryUpdateOne req.body db hdb),
   handle_ok_or_500 req db tryUpdateMany hauth (errOk_tryUpdateMany req.body db hdb),
   handle_ok_or_500 req db tryDeleteOne hauth (errOk_tryDeleteOne req.body db hdb),
   handle_ok_or_500 req db tryDeleteMany hauth (errOk_tryDeleteMany req.body db hdb)⟩

/-- Witness for `c3_catch_all_500`: an authenticated `insertOne` request
missing its required `document` field gets either a 200 or a non-empty
500 error (it concretely gets the latter, with message
`KeyError: document`). -/
theorem c3_witness :
    (⟨[], 0, none⟩ : DB).failMsgOk ∧
    authenticate_request ((some "Basic dGVzdHVzZXI6dGVzdHBhc3M=").getD "") = true ∧
    ((insert_one ⟨some "Basic dGVzdHVzZXI6dGVzdHBhc3M=",
        some (.obj [("database", .str "d"), ("collection", .str "c")])⟩
        ⟨[], 0, none⟩).1.status = 200 ∨
      ∃ m, (insert_one ⟨some "Basic dGVzdHVzZXI6dGVzdHBhc3M=",
        some (.obj [("database", .str "d"), ("collection", .str "c")])⟩
        ⟨[], 0, none⟩).1 = errorResponse m ∧ m ≠ "") :=
  And.intro (fun _ hm => nomatch hm) (And.intro (by decide)
    ((c3_catch_all_500
      ⟨some "Basic dGVzdHVzZXI6dGVzdHBhc3M=",
       some (.obj [("database", .str "d"), ("collection", .str "c")])⟩
      ⟨[], 0, none⟩ (fun _ hm => nomatch hm) (by decide)).1))

/-! ## C4 — identifiers rendered as strings, never raw ObjectIds -/

/-- Monotonicity of `OkP` in the property. -/
theorem okP_mono {P Q : JValue → Prop} (himp : ∀ v, P v → Q v)
    {x : Except String (JValue × DB)} (hx : OkP P x) : OkP Q x :=
  fun v db₂ hv => himp v (hx v db₂ hv)

theorem serial_tryInsertOne (body : Option JValue) (db : DB) :
    OkP (fun v => oidFree v = true) (tryInsertOne body db) := by
  unfold tryInsertOne
  refine okP_bind (fun data => ?_)
  refine okP_bind (fun database => ?_)
  refine okP_bind (fun cname => ?_)
  refine okP_bind (fun document => ?_)
  refine okP_bind (fun p => ?_)
  obtain ⟨insertedId, db₂⟩ := p
  exact okP_jsonify _ _ (fun hfree => hfree)

theorem serial_tryInsertMany (body : Option JValue) (db : DB) :
    OkP (fun v => oidFree v = true) (tryInsertMany body db) := by
  unfold tryInsertMany
  refine okP_bind (fun data => ?_)
  refine okP_bind (fun database => ?_)
  refine okP_bind (fun cname => ?_)
  refine okP_bind (fun documents => ?_)
  refine okP_bind (fun p => ?_)
  obtain ⟨insertedIds, db₂⟩ := p
  exact okP_jsonify _ _ (fun hfree => hfree)

/-- `find` success responses are serializable and consist of a
`documents` array of stored documents with their `_id` stringified. -/
theorem shape_tryFind (body : Option JValue) (db : DB) :
    OkP (fun v => oidFree v = true ∧ ∃ docs : List Doc,
        v = .obj [("documents", .arr (docs.map (fun d => JValue.obj (convertId d))))])
      (tryFind body db) := by
  unfold tryFind
  refine okP_bind (fun data => ?_)
  refine okP_bind (fun database => ?_)
  refine okP_bind (fun cname => ?_)
  refine okP_bind (fun filter_doc => ?_)
  refine okP_bind (fun limit => ?_)
  refine okP_bind (fun skip => ?_)
  refine okP_bind (fun matched => ?_)
  refine okP_bind (fun skipped => ?_)
  refine okP_bind (fun limited => ?_)
  exact okP_jsonify _ _ (fun hfree => ⟨hfree, limited, rfl⟩)

/-- `aggregate` success responses are serializable and consist of a
`documents` array of stored documents with their `_id` stringified. -/
theorem shape_tryAggregate (body : Option JValue) (db : DB) :
    OkP (fun v => oidFree v = true ∧ ∃ docs : List Doc,
        v = .obj [("documents", .arr (docs.map (fun d => JValue.obj (convertId d))))])
      (tryAggregate body db) := by
  unfold tryAggregate
  refine okP_bind (fun data => ?_)
  refine okP_bind (fun database => ?_)
  refine okP_bind (fun cname => ?_)
  refine okP_bind (fun pipeline => ?_)
  refine okP_bind (fun results => ?_)
  exact okP_jsonify _ _ (fun hfree => ⟨hfree, results, rfl⟩)

theorem serial_tryUpdateOne (body : Option JValue) (db : DB) :
    OkP (fun v => oidFree v = true) (tryUpdateOne body db) := by
  unfold tryUpdateOne
  refine okP_bind (fun data => ?_)
  refine okP_bind (fun database => ?_)
  refine okP_bind (fun cname => ?_)
  refine okP_bind (fun filter_criteria => ?_)
  refine okP_bind (fun update_doc => ?_)
  refine okP_bind (fun p => ?_)
  obtain ⟨⟨matched, modified, upserted⟩, db₂⟩ := p
  exact okP_jsonify _ _ (fun hfree => hfree)

theorem serial_tryUpdateMany (body : Option JValue) (db : DB) :
    OkP (fun v => oidFree v = true) (tryUpdateMany body db) := by
  unfold tryUpdateMany
  refine okP_bind (fun data => ?_)
  refine okP_bind (fun database => ?_)
  refine okP_bind (fun cname => ?_)
  refine okP_bind (fun filter_criteria => ?_)
  refine okP_bind (fun update_doc => ?_)
  refine okP_bind (fun p => ?_)
  obtain ⟨⟨matched, modified⟩, db₂⟩ := p
  exact okP_jsonify _ _ (fun hfree => hfree)

theorem serial_tryDeleteOne (body : Option JValue) (db : DB) :
    OkP (fun v => oidFree v = true) (tryDeleteOne body db) := by
  unfold tryDeleteOne
  refine okP_bind (fun data => ?_)
  refine okP_bind (fun database => ?_)
  refine okP_bind (fun cname => ?_)
  refine okP_bind (fun filter_criteria => ?_)
  refine okP_bind (fun p => ?_)
  obtain ⟨deleted, db₂⟩ := p
  exact okP_jsonify _ _ (fun hfree => hfree)

theorem serial_tryDeleteMany (body : Option JValue) (db : DB) :
    OkP (fun v => oidFree v = true) (tryDeleteMany body db) := by
  unfold tryDeleteMany
  refine okP_bind (fun data => ?_)
  refine okP_bind (fun database => ?_)
  refine okP_bind (fun cname => ?_)
  refine okP_bind (fun filter_criteria => ?_)
  refine okP_bind (fun p => ?_)
  obtain ⟨deleted, db₂⟩ := p
  exact okP_jsonify _ _ (fun hfree => hfree)

/-- All three answer shapes of a handler — 401, 500 and any 200 whose
try body only succeeds with serializable values — are ObjectId-free. -/
theorem handle_body_serial (req : HttpRequest) (db : DB)
    (tryB : Option JValue → DB → Except String (JValue × DB))
    (h : OkP (fun v => oidFree v = true) (tryB req.body db)) :
    oidFree (handle req db tryB).1.body = true := by
  unfold handle
  by_cases hauth : authenticate_request (req.authHeader.getD "") = true
  · rw [hauth]
    cases hres : tryB req.body db with
    | ok p =>
      obtain ⟨v, db₂⟩ := p
      exact h v db₂ hres
    | error e => rfl
  · rw [Bool.not_eq_true] at hauth
    rw [hauth]
    rfl

/-- Looking up a key after `setField` on a document that has it yields
the new value. -/
theorem jlookup_setField (fs : Doc) (k : String) (v w : JValue)
    (h : jlookup fs k = some w) : jlookup (setField fs k v) k = some v := by
  induction fs with
  | nil => cases h
  | cons kv rest ih =>
    obtain ⟨k₂, w₂⟩ := kv
    by_cases hk : k₂ = k
    · subst hk
      simp [setField, jlookup]
    · simp only [setField, if_neg hk, jlookup] at h ⊢
      exact ih h

/-- After `convertId`, a present `_id` field is a string. -/
theorem convertId_idRendered (d : Doc) : IdRendered (JValue.obj (convertId d)) := by
  intro fs hfs x hx
  injection hfs with hfs₂
  subst hfs₂
  unfold convertId at hx
  cases hl : jlookup d "_id" with
  | none =>
    simp only [hl] at hx
    cases hx
  | some w =>
    simp only [hl] at hx
    rw [jlookup_setField d "_id" _ w hl] at hx
    injection hx with hx₂
    exact ⟨pyStr w, hx₂.symm⟩

/-- A 200 response of a handler whose try body has the
documents-array shape carries only id-stringified documents; the other
responses do not have the `documents` shape at all. -/
theorem handle_docs_rendered (req : HttpRequest) (db : DB)
    (tryB : Option JValue → DB → Except String (JValue × DB))
    (hshape : OkP (fun v => ∃ docs : List Doc,
        v = .obj [("documents", .arr (docs.map (fun d => JValue.obj (convertId d))))])
      (tryB req.body db)) :
    ∀ ds, (handle req db tryB).1.body = .obj [("documents", .arr ds)] →
      ∀ v ∈ ds, IdRendered v := by
  intro ds hbody v hv
  unfold handle at hbody
  by_cases hauth : authenticate_request (req.authHeader.getD "") = true
  · rw [hauth] at hbody
    cases hres : tryB req.body db with
    | ok p =>
      obtain ⟨w, db₂⟩ := p
      rw [hres] at hbody
      obtain ⟨docs, hw⟩ := hshape w db₂ hres
      have hbody₂ : w = JValue.obj [("documents", JValue.arr ds)] := hbody
      rw [hw] at hbody₂
      injection hbody₂ with hl
      obtain ⟨hpair, -⟩ := List.cons.inj hl
      obtain ⟨-, harr⟩ := Prod.mk.injEq .. |>.mp hpair
      injection harr with hds
      rw [← hds] at hv
      obtain ⟨d, -, hd⟩ := List.mem_map.mp hv
      rw [← hd]
      exact convertId_idRendered d
    | error e =>
      rw [hres] at hbody
      have hbody₂ : JValue.obj [("error", JValue.str e)]
          = JValue.obj [("documents", JValue.arr ds)] := hbody
      injection hbody₂ with hl
      obtain ⟨hpair, -⟩ := List.cons.inj hl
      obtain ⟨hkey, -⟩ := Prod.mk.injEq .. |>.mp hpair
      exact absurd hkey (by decide)
  · rw [Bool.not_eq_true] at hauth
    rw [hauth] at hbody
    have hbody₂ : JValue.obj [("error", JValue.str "Unauthorized")]
        = JValue.obj [("documents", JValue.arr ds)] := hbody
    injection hbody₂ with hl
    obtain ⟨hpair, -⟩ := List.cons.inj hl
    obtain ⟨hkey, -⟩ := Prod.mk.injEq .. |>.mp hpair
    exact absurd hkey (by decide)

/-- C4: every response body of every endpoint — success or failure — is
free of raw ObjectIds (the database's internal id representation never
appears in a response), and in particular every document returned in the
`documents` array of a `find` or `aggregate` response has its `_id`
field rendered as a string wherever one is present. -/
theorem c4_ids_rendered (req : HttpRequest) (db : DB) :
    oidFree (insert_one req db).1.body = true ∧
    oidFree (insert_many req db).1.body = true ∧
    oidFree (find req db).1.body = true ∧
    oidFree (aggregate req db).1.body = true ∧
    oidFree (update_one req db).1.body = true ∧
    oidFree (update_many req db).1.body = true ∧
    oidFree (delete_one req db).1.body = true ∧
    oidFree (delete_many req db).1.body = true ∧
    oidFree (health req db).1.body = true ∧
    (∀ ds, (find req db).1.body = .obj [("documents", .arr ds)] →
      ∀ v ∈ ds, IdRendered v) ∧
    (∀ ds, (aggregate req db).1.body = .obj [("documents", .arr ds)] →
      ∀ v ∈ ds, IdRendered v) := by
  refine ⟨handle_body_serial req db tryInsertOne (serial_tryInsertOne req.body db),
    handle_body_serial req db tryInsertMany (serial_tryInsertMany req.body db),
    handle_body_serial req db tryFind ?_,
    handle_body_serial req db tryAggregate ?_,
    handle_body_serial req db tryUpdateOne (serial_tryUpdateOne req.body db),
    handle_body_serial req db tryUpdateMany (serial_tryUpdateMany req.body db),
    handle_body_serial req db tryDeleteOne (serial_tryDeleteOne req.body db),
    handle_body_serial req db tryDeleteMany (serial_tryDeleteMany req.body db),
    ?_,
    handle_docs_rendered req db tryFind
      (okP_mono (fun v hp => hp.2) (shape_tryFind req.body db)),
    handle_docs_rendered req db tryAggregate
      (okP_mono (fun v hp => hp.2) (shape_tryAggregate req.body db))⟩
  · exact okP_mono (fun v hp => hp.1) (shape_tryFind req.body db)
  · exact okP_mono (fun v hp => hp.1) (shape_tryAggregate req.body db)
  · unfold health
    cases db.failure <;> rfl

/-- Witness for `c4_ids_rendered`: a find over a collection holding one
document with an ObjectId `_id` returns a serializable body whose only
document carries `_id` as a string. -/
theorem c4_witness :
    oidFree (find ⟨some "Basic dGVzdHVzZXI6dGVzdHBhc3M=",
      some (.obj [("database", .str "d"), ("collection", .str "c")])⟩
      ⟨[(("d", "c"), [[("_id", .oid 1)]])], 5, none⟩).1.body = true ∧
    (∀ v ∈ [JValue.obj [("_id", JValue.str (pyStr (JValue.oid 1)))]], IdRendered v) :=
  And.intro
    ((c4_ids_rendered
      ⟨some "Basic dGVzdHVzZXI6dGVzdHBhc3M=",
       some (.obj [("database", .str "d"), ("collection", .str "c")])⟩
      ⟨[(("d", "c"), [[("_id", .oid 1)]])], 5, none⟩).2.2.1)
    ((c4_ids_rendered
      ⟨some "Basic dGVzdHVzZXI6dGVzdHBhc3M=",
       some (.obj [("database", .str "d"), ("collection", .str "c")])⟩
      ⟨[(("d", "c"), [[("_id", .oid 1)]])], 5, none⟩).2.2.2.2.2.2.2.2.2.1
      [JValue.obj [("_id", JValue.str (pyStr (JValue.oid 1)))]] rfl)

/-! ## Success-path inversion machinery -/

theorem except_bind_ok {α β : Type} (x : Except String α) (f : α → Except String β) (b : β) :
    (x >>= f) = Except.ok b ↔ ∃ a, x = Except.ok a ∧ f a = Except.ok b := by
  cases x with
  | error e => simp [Bind.bind, Except.bind]
  | ok a => simp [Bind.bind, Except.bind]

/-- Lookup distributes over appended field lists: the first list wins. -/
theorem jlookup_append (fs gs : Doc) (k : String) :
    jlookup (fs ++ gs) k =
      match jlookup fs k with
      | some v => some v
      | none => jlookup gs k := by
  induction fs with
  | nil => simp [jlookup]
  | cons kv rest ih =>
    obtain ⟨k₂, w⟩ := kv
    by_cases hk : k₂ = k
    · simp [jlookup, hk]
    · simp [jlookup, hk, ih]

/-- A falsy `limit` leaves the cursor untouched (`if limit:` is skipped). -/
theorem cursorLimit_falsy (docs : List Doc) (v : JValue) (h : jTruthy v = false) :
    cursorLimit docs v = Except.ok docs := by
  unfold cursorLimit
  rw [h]
  rfl

/-- `find`'s try body reads its request object only through the five
fields `database`, `collection`, `filter`, `limit` and `skip` (the last
three through their defaults); two bodies agreeing there — with `limit`
compared by its effect on the cursor — give identical outcomes. -/
theorem tryFind_eq_of_lookups (fs gs : Doc) (db : DB)
    (h₁ : jlookup fs "database" = jlookup gs "database")
    (h₂ : jlookup fs "collection" = jlookup gs "collection")
    (h₃ : (jlookup fs "filter").getD (.obj []) = (jlookup gs "filter").getD (.obj []))
    (h₄ : ∀ docs : List Doc, cursorLimit docs ((jlookup fs "limit").getD .null)
            = cursorLimit docs ((jlookup gs "limit").getD .null))
    (h₅ : (jlookup fs "skip").getD (.num 0) = (jlookup gs "skip").getD (.num 0)) :
    tryFind (some (.obj fs)) db = tryFind (some (.obj gs)) db := by
  simp only [tryFind, getJson, Bind.bind, Except.bind, jGet, jGetD, jAsName]
  rw [h₁, h₂, h₃, h₅]
  simp only [h₄]

/-- The authentication gate and response assembly are the same function
of the try body's outcome, so equal try outcomes give equal responses. -/
theorem find_eq_of_try_eq (hdr : Option String) (b₁ b₂ : Option JValue) (db : DB)
    (h : tryFind b₁ db = tryFind b₂ db) :
    find ⟨hdr, b₁⟩ db = find ⟨hdr, b₂⟩ db := by
  unfold find handle
  dsimp only
  rw [h]

/-- When no document matches, `update_one` modifies nothing. -/
theorem updateFirst_nomatch (ffs sets : Doc) (docs : List Doc)
    (h : ∀ d ∈ docs, docMatches d ffs = false) :
    updateFirst ffs sets docs = (0, 0, docs) := by
  induction docs with
  | nil => rfl
  | cons d ds ih =>
    simp only [updateFirst, h d (List.mem_cons_self d ds),
      ih (fun x hx => h x (List.mem_cons_of_mem d hx)), Bool.false_eq_true, if_false]

/-- The loop of `insert_many` produces exactly one inserted id per
document. -/
theorem insertManyGo_length (hc : String × String) (ds : List JValue) :
    ∀ (db : DB) (stored : List Doc) (ids out : List JValue) (db₂ : DB),
    insertManyGo hc db stored ids ds = Except.ok (out, db₂) →
    out.length = ids.length + ds.length := by
  induction ds with
  | nil =>
    intro db stored ids out db₂ h
    injection h with h₂
    injection h₂ with h₃ h₄
    rw [← h₃, List.length_reverse]
    simp
  | cons d rest ih =>
    intro db stored ids out db₂ h
    unfold insertManyGo at h
    repeat' split at h
    all_goals first
      | cases h
      | (have hlen := ih _ _ _ _ _ h
         simp only [List.length_cons] at hlen ⊢
         omega)

/-- `insert_many` over N documents returns N inserted ids. -/
theorem collInsertMany_length (db : DB) (hc : String × String) (ds : List JValue)
    (ids : List JValue) (db₂ : DB)
    (h : collInsertMany db hc (.arr ds) = Except.ok (ids, db₂)) :
    ids.length = ds.length := by
  unfold collInsertMany at h
  rw [except_bind_ok] at h
  obtain ⟨u, -, h⟩ := h
  cases hck : ds.isEmpty
  all_goals
    have h₂ : (if ds.isEmpty = true then
        (Except.error "documents must be a non-empty list" : Except String (List JValue × DB))
      else insertManyGo hc db [] [] ds) = Except.ok (ids, db₂) := h
  · rw [hck, if_neg (by simp)] at h₂
    have := insertManyGo_length hc ds db [] [] ids db₂ h₂
    simpa using this
  · rw [hck, if_pos rfl] at h₂
    cases h₂

/-- `update_one` never upserts (the handler passes no `upsert`
argument), and with a filter matching no stored document it reports
`matched = modified = 0`. -/
theorem collUpdateOne_ok (db : DB) (hc : String × String) (ffs : Doc) (u : JValue)
    (m mo : Nat) (up : Option JValue) (db₂ : DB)
    (h : collUpdateOne db hc (.obj ffs) u = Except.ok ((m, mo, up), db₂)) :
    up = none ∧ ((∀ d ∈ db.readColl hc, docMatches d ffs = false) → m = 0 ∧ mo = 0) := by
  unfold collUpdateOne at h
  rw [except_bind_ok] at h
  obtain ⟨-, -, h⟩ := h
  cases hvu : validateUpdate u with
  | error e =>
    rw [hvu] at h
    cases h
  | ok sets =>
    have h₂ : (validateUpdate u >>= fun sets =>
        match updateFirst ffs sets (db.readColl hc) with
        | (m₃, mo₃, docs₃) =>
          Except.ok ((m₃, mo₃, (none : Option JValue)), db.writeColl hc docs₃))
        = Except.ok ((m, mo, up), db₂) := h
    rw [hvu] at h₂
    simp only [Bind.bind, Except.bind] at h₂
    cases hq : updateFirst ffs sets (db.readColl hc) with
    | mk m₂ rest =>
      obtain ⟨mo₂, docs₂⟩ := rest
      rw [hq] at h₂
      have h₃ : (Except.ok ((m₂, mo₂, (none : Option JValue)), db.writeColl hc docs₂)
          : Except String ((Nat × Nat × Option JValue) × DB))
          = Except.ok ((m, mo, up), db₂) := h₂
      injection h₃ with h₄
      injection h₄ with h₅ h₆
      injection h₅ with hm h₇
      injection h₇ with hmo hup
      refine ⟨hup.symm, fun hnone => ?_⟩
      rw [updateFirst_nomatch ffs sets _ hnone] at hq
      injection hq with hq₁ hq₂
      injection hq₂ with hq₃ hq₄
      omega

/-- Removing every `k`-entry leaves lookups at other keys unchanged. -/
theorem jlookup_eraseKey (fs : Doc) (k κ : String) (hk : κ ≠ k) :
    jlookup (fs.filter (fun kv => !(kv.1 == k))) κ = jlookup fs κ := by
  induction fs with
  | nil => rfl
  | cons kv rest ih =>
    obtain ⟨k₂, w⟩ := kv
    by_cases h₂ : k₂ = k
    · subst h₂
      have hne : ¬ (k₂ = κ) := fun hh => hk hh.symm
      simp [List.filter_cons, jlookup, hne, ih]
    · simp [List.filter_cons, h₂, jlookup, ih]

/-- Removing every `k`-entry makes `k` absent. -/
theorem jlookup_eraseKey_self (fs : Doc) (k : String) :
    jlookup (fs.filter (fun kv => !(kv.1 == k))) k = none := by
  induction fs with
  | nil => rfl
  | cons kv rest ih =>
    obtain ⟨k₂, w⟩ := kv
    by_cases h₂ : k₂ = k
    · simp [List.filter_cons, h₂, ih]
    · simp [List.filter_cons, h₂, jlookup, ih]

/-- A positive integer limit truncates the cursor to that many
documents. -/
theorem cursorLimit_num (docs : List Doc) (n : Int) (hn : 0 < n) :
    cursorLimit docs (.num n) = Except.ok (docs.take n.natAbs) := by
  unfold cursorLimit
  have ht : jTruthy (.num n) = true := by
    simp only [jTruthy, bne_iff_ne]
    omega
  rw [ht]
  rfl

/-- The handler wrapper around a successful `find` try body. -/
theorem find_of_try_ok (hdr : Option String) (b : Option JValue) (db : DB)
    (v : JValue) (db₂ : DB)
    (hauth : authenticate_request (hdr.getD "") = true)
    (h : tryFind b db = Except.ok (v, db₂)) :
    find ⟨hdr, b⟩ db = (⟨200, v⟩, db₂) := by
  unfold find handle
  dsimp only
  rw [hauth, h]
  rfl

/-- The full success computation of `find`'s try body: resolve the
request fields, match the filter against the collection, drop `skip`
documents, apply the cursor limit, stringify ids, serialize. -/
theorem tryFind_success (db : DB) (fs : Doc) (dname cname : String) (ffs : Doc) (s : Int)
    (hok : db.failure = none)
    (hd : jlookup fs "database" = some (.str dname))
    (hc : jlookup fs "collection" = some (.str cname))
    (hfil : (jlookup fs "filter").getD (.obj []) = .obj ffs)
    (hskip : (jlookup fs "skip").getD (.num 0) = .num s) (hs : 0 ≤ s)
    (lv : JValue) (hlv : (jlookup fs "limit").getD .null = lv)
    (docs : List Doc)
    (hcl : cursorLimit (((db.readColl (dname, cname)).filter
        (fun d => docMatches d ffs)).drop s.natAbs) lv = Except.ok docs)
    (hser : oidFreeArr (docs.map (fun d => JValue.obj (convertId d))) = true) :
    tryFind (some (.obj fs)) db =
      Except.ok (.obj [("documents",
        .arr (docs.map (fun d => JValue.obj (convertId d))))], db) := by
  have hslt : ¬ (s < 0) := not_lt.mpr hs
  have hfree : oidFree (.obj [("documents",
      .arr (docs.map (fun d => JValue.obj (convertId d))))]) = true := by
    simp only [oidFree, oidFreeObj, Bool.and_true]
    exact hser
  simp only [tryFind, getJson, Bind.bind, Except.bind, jGet, jGetD, jAsName,
    hd, hc, hfil, hskip, hlv, get_collection, collFind, DB.checkUp, hok,
    cursorSkip, pyToInt, hslt, if_false, hcl, jsonifyCheck, hfree, if_true]

/-! ## C6 — insert counts -/

/-- C6: a successful `insertMany` over N documents responds with
`insertedIds` of length N — every element a string — and
`insertedCount` equal to the length of `insertedIds` (hence to N); a
successful `insertOne` responds `{insertedId, insertedCount: 1}` with
the id a string and the count fixed at 1. -/
theorem c6_insert_counts (req : HttpRequest) (db : DB) (fs : Doc)
    (resp : HttpResponse) (db₂ : DB)
    (hbody : req.body = some (.obj fs)) :
    (∀ ds : List JValue, jlookup fs "documents" = some (.arr ds) →
      insert_many req db = (resp, db₂) → resp.status = 200 →
      ∃ ids : List JValue,
        resp.body = .obj [("insertedIds", .arr ids),
          ("insertedCount", .num ids.length)] ∧
        ids.length = ds.length ∧ ∀ v ∈ ids, ∃ s, v = JValue.str s) ∧
    (insert_one req db = (resp, db₂) → resp.status = 200 →
      ∃ s : String, resp.body = .obj [("insertedId", .str s),
        ("insertedCount", .num 1)]) := by
  constructor
  · intro ds hds heq hst
    have h200 := handle_200 req db tryInsertMany resp db₂ heq hst
    rw [hbody] at h200
    unfold tryInsertMany at h200
    rw [except_bind_ok] at h200
    obtain ⟨data, hdata, h200⟩ := h200
    cases hdata
    rw [except_bind_ok] at h200
    obtain ⟨dbname, -, h200⟩ := h200
    rw [except_bind_ok] at h200
    obtain ⟨cname, -, h200⟩ := h200
    rw [except_bind_ok] at h200
    obtain ⟨documents, hdocs, h200⟩ := h200
    have hdocs₂ : (match jlookup fs "documents" with
        | some v => Except.ok v
        | none => Except.error ("KeyError: " ++ "documents")) = Except.ok documents := hdocs
    rw [hds] at hdocs₂
    cases hdocs₂
    rw [except_bind_ok] at h200
    obtain ⟨p, hins, h200⟩ := h200
    obtain ⟨ids, db₃⟩ := p
    have hlen := collInsertMany_length db _ ds ids db₃ hins
    have h200₂ : (jsonifyCheck (.obj
        [("insertedIds", .arr (ids.map (fun i => JValue.str (pyStr i)))),
         ("insertedCount", .num ids.length)]) >>= fun resp₂ =>
        Except.ok (resp₂, db₃)) = Except.ok (resp.body, db₂) := h200
    rw [except_bind_ok] at h200₂
    obtain ⟨respv, hjson, hfin⟩ := h200₂
    obtain ⟨hrespv, -⟩ := jsonifyCheck_ok _ _ hjson
    injection hfin with hfin₂
    injection hfin₂ with hA hB
    refine ⟨ids.map (fun i => JValue.str (pyStr i)), ?_, ?_, ?_⟩
    · rw [← hA, hrespv]
      simp [List.length_map]
    · simp [List.length_map, hlen]
    · intro v hv
      obtain ⟨i, -, hi⟩ := List.mem_map.mp hv
      exact ⟨pyStr i, hi.symm⟩
  · intro heq hst
    have h200 := handle_200 req db tryInsertOne resp db₂ heq hst
    rw [hbody] at h200
    unfold tryInsertOne at h200
    rw [except_bind_ok] at h200
    obtain ⟨data, hdata, h200⟩ := h200
    cases hdata
    rw [except_bind_ok] at h200
    obtain ⟨dbname, -, h200⟩ := h200
    rw [except_bind_ok] at h200
    obtain ⟨cname, -, h200⟩ := h200
    rw [except_bind_ok] at h200
    obtain ⟨document, -, h200⟩ := h200
    rw [except_bind_ok] at h200
    obtain ⟨p, -, h200⟩ := h200
    obtain ⟨idv, db₃⟩ := p
    have h200₂ : (jsonifyCheck (.obj
        [("insertedId", JValue.str (pyStr idv)), ("insertedCount", .num 1)])
        >>= fun resp₂ => Except.ok (resp₂, db₃)) = Except.ok (resp.body, db₂) := h200
    rw [except_bind_ok] at h200₂
    obtain ⟨respv, hjson, hfin⟩ := h200₂
    obtain ⟨hrespv, -⟩ := jsonifyCheck_ok _ _ hjson
    injection hfin with hfin₂
    injection hfin₂ with hA hB
    exact ⟨pyStr idv, by rw [← hA, hrespv]⟩

/-- Witness for `c6_insert_counts`: a two-document `insertMany` and a
one-document `insertOne` at concrete inputs. -/
theorem c6_witness :
    (∃ ids : List JValue,
      (insert_many ⟨some "Basic dGVzdHVzZXI6dGVzdHBhc3M=",
        some (.obj [("database", .str "d"), ("collection", .str "c"),
          ("documents", .arr [.obj [("a", .num 1)], .obj [("a", .num 2)]])])⟩
        ⟨[], 0, none⟩).1.body
        = .obj [("insertedIds", .arr ids), ("insertedCount", .num ids.length)] ∧
      ids.length = ([JValue.obj [("a", .num 1)], JValue.obj [("a", .num 2)]]).length ∧
      ∀ v ∈ ids, ∃ s, v = JValue.str s) ∧
    (∃ s : String,
      (insert_one ⟨some "Basic dGVzdHVzZXI6dGVzdHBhc3M=",
        some (.obj [("database", .str "d"), ("collection", .str "c"),
          ("document", .obj [("a", .num 1)])])⟩
        ⟨[], 0, none⟩).1.body
        = .obj [("insertedId", .str s), ("insertedCount", .num 1)]) :=
  And.intro
    ((c6_insert_counts
      ⟨some "Basic dGVzdHVzZXI6dGVzdHBhc3M=",
        some (.obj [("database", .str "d"), ("collection", .str "c"),
          ("documents", .arr [.obj [("a", .num 1)], .obj [("a", .num 2)]])])⟩
      ⟨[], 0, none⟩
      [("database", .str "d"), ("collection", .str "c"),
        ("documents", .arr [.obj [("a", .num 1)], .obj [("a", .num 2)]])]
      (insert_many ⟨some "Basic dGVzdHVzZXI6dGVzdHBhc3M=",
        some (.obj [("database", .str "d"), ("collection", .str "c"),
          ("documents", .arr [.obj [("a", .num 1)], .obj [("a", .num 2)]])])⟩
        ⟨[], 0, none⟩).1
      (insert_many ⟨some "Basic dGVzdHVzZXI6dGVzdHBhc3M=",
        some (.obj [("database", .str "d"), ("collection", .str "c"),
          ("documents", .arr [.obj [("a", .num 1)], .obj [("a", .num 2)]])])⟩
        ⟨[], 0, none⟩).2
      rfl).1 [.obj [("a", .num 1)], .obj [("a", .num 2)]] rfl rfl rfl)
    ((c6_insert_counts
      ⟨some "Basic dGVzdHVzZXI6dGVzdHBhc3M=",
        some (.obj [("database", .str "d"), ("collection", .str "c"),
          ("document", .obj [("a", .num 1)])])⟩
      ⟨[], 0, none⟩
      [("database", .str "d"), ("collection", .str "c"),
        ("document", .obj [("a", .num 1)])]
      (insert_one ⟨some "Basic dGVzdHVzZXI6dGVzdHBhc3M=",
        some (.obj [("database", .str "d"), ("collection", .str "c"),
          ("document", .obj [("a", .num 1)])])⟩
        ⟨[], 0, none⟩).1
      (insert_one ⟨some "Basic dGVzdHVzZXI6dGVzdHBhc3M=",
        some (.obj [("database", .str "d"), ("collection", .str "c"),
          ("document", .obj [("a", .num 1)])])⟩
        ⟨[], 0, none⟩).2
      rfl).2 rfl rfl)

/-! ## C7 — updateOne response shape -/

/-- C7: every successful `updateOne` response has exactly the fields
`matchedCount`, `modifiedCount` and `upsertedId`, with `upsertedId`
null (the handler never passes `upsert=True`, so no upsert can happen —
null is the "string or null" case that actually occurs); and when the
filter matches no stored document, `matchedCount` and `modifiedCount`
are both 0. -/
theorem c7_update_one_shape (req : HttpRequest) (db : DB) (fs ffs : Doc)
    (dname cname : String) (resp : HttpResponse) (db₂ : DB)
    (hbody : req.body = some (.obj fs))
    (hd : jlookup fs "database" = some (.str dname))
    (hc : jlookup fs "collection" = some (.str cname))
    (hfil : (jlookup fs "filter").getD (.obj []) = .obj ffs)
    (heq : update_one req db = (resp, db₂)) (hst : resp.status = 200) :
    ∃ m mo : Nat,
      resp.body = .obj [("matchedCount", .num m), ("modifiedCount", .num mo),
        ("upsertedId", .null)] ∧
      ((∀ d ∈ db.readColl (dname, cname), docMatches d ffs = false) →
        m = 0 ∧ mo = 0) := by
  have h200 := handle_200 req db tryUpdateOne resp db₂ heq hst
  rw [hbody] at h200
  unfold tryUpdateOne at h200
  rw [except_bind_ok] at h200
  obtain ⟨data, hdata, h200⟩ := h200
  cases hdata
  rw [except_bind_ok] at h200
  obtain ⟨dbn, hdbn, h200⟩ := h200
  have hdbn₂ : jAsName (JValue.str dname) = Except.ok dbn := by
    have h₃ : ((match jlookup fs "database" with
        | some v => Except.ok v
        | none => Except.error ("KeyError: " ++ "database")) >>= jAsName)
        = Except.ok dbn := hdbn
    rw [hd] at h₃
    exact h₃
  cases hdbn₂
  rw [except_bind_ok] at h200
  obtain ⟨cn, hcn, h200⟩ := h200
  have hcn₂ : jAsName (JValue.str cname) = Except.ok cn := by
    have h₃ : ((match jlookup fs "collection" with
        | some v => Except.ok v
        | none => Except.error ("KeyError: " ++ "collection")) >>= jAsName)
        = Except.ok cn := hcn
    rw [hc] at h₃
    exact h₃
  cases hcn₂
  rw [except_bind_ok] at h200
  obtain ⟨filterv, hfilv, h200⟩ := h200
  have hfilv₂ : JValue.obj ffs = filterv := by
    have h₃ : (Except.ok ((jlookup fs "filter").getD (.obj []))
        : Except String JValue) = Except.ok filterv := hfilv
    rw [hfil] at h₃
    injection h₃
  cases hfilv₂
  rw [except_bind_ok] at h200
  obtain ⟨updatev, -, h200⟩ := h200
  rw [except_bind_ok] at h200
  obtain ⟨p, hupd, h200⟩ := h200
  obtain ⟨trip, db₃⟩ := p
  obtain ⟨m₂, mo₂, up⟩ := trip
  obtain ⟨hup, hzero⟩ := collUpdateOne_ok db _ ffs updatev m₂ mo₂ up db₃ hupd
  subst hup
  have h200₂ : (jsonifyCheck (.obj
      [("matchedCount", .num m₂), ("modifiedCount", .num mo₂),
       ("upsertedId", JValue.null)]) >>= fun resp₂ =>
      Except.ok (resp₂, db₃)) = Except.ok (resp.body, db₂) := h200
  rw [except_bind_ok] at h200₂
  obtain ⟨respv, hjson, hfin⟩ := h200₂
  obtain ⟨hrespv, -⟩ := jsonifyCheck_ok _ _ hjson
  injection hfin with hfin₂
  injection hfin₂ with hA hB
  refine ⟨m₂, mo₂, ?_, hzero⟩
  rw [← hA, hrespv]

/-- Witness for `c7_update_one_shape`: an `updateOne` whose filter
matches nothing, at concrete inputs. -/
theorem c7_witness :
    ∃ m mo : Nat,
      (update_one ⟨some "Basic dGVzdHVzZXI6dGVzdHBhc3M=",
        some (.obj [("database", .str "d"), ("collection", .str "c"),
          ("filter", .obj [("y", .num 9)]),
          ("update", .obj [("$set", .obj [("z", .num 1)])])])⟩
        ⟨[(("d", "c"), [[("x", .num 1)]])], 9, none⟩).1.body
        = .obj [("matchedCount", .num m), ("modifiedCount", .num mo),
          ("upsertedId", .null)] ∧
      ((∀ d ∈ (⟨[(("d", "c"), [[("x", .num 1)]])], 9, none⟩ : DB).readColl ("d", "c"),
          docMatches d [("y", .num 9)] = false) → m = 0 ∧ mo = 0) :=
  c7_update_one_shape
    ⟨some "Basic dGVzdHVzZXI6dGVzdHBhc3M=",
      some (.obj [("database", .str "d"), ("collection", .str "c"),
        ("filter", .obj [("y", .num 9)]),
        ("update", .obj [("$set", .obj [("z", .num 1)])])])⟩
    ⟨[(("d", "c"), [[("x", .num 1)]])], 9, none⟩
    [("database", .str "d"), ("collection", .str "c"),
      ("filter", .obj [("y", .num 9)]),
      ("update", .obj [("$set", .obj [("z", .num 1)])])]
    [("y", .num 9)] "d" "c"
    (update_one ⟨some "Basic dGVzdHVzZXI6dGVzdHBhc3M=",
      some (.obj [("database", .str "d"), ("collection", .str "c"),
        ("filter", .obj [("y", .num 9)]),
        ("update", .obj [("$set", .obj [("z", .num 1)])])])⟩
      ⟨[(("d", "c"), [[("x", .num 1)]])], 9, none⟩).1
    (update_one ⟨some "Basic dGVzdHVzZXI6dGVzdHBhc3M=",
      some (.obj [("database", .str "d"), ("collection", .str "c"),
        ("filter", .obj [("y", .num 9)]),
        ("update", .obj [("$set", .obj [("z", .num 1)])])])⟩
      ⟨[(("d", "c"), [[("x", .num 1)]])], 9, none⟩).2
    rfl rfl rfl rfl rfl rfl

/-! ## C5 — find defaults and cursor order -/

/-- C5: on `find`, an absent `filter` defaults to the match-all filter
`{}` and an absent `skip` defaults to `0` (first conjunct: writing those
defaults explicitly into the body changes nothing), and an absent
`limit` means unbounded while the skip is applied to the cursor before
the limit: an authenticated successful find returns exactly the
matching documents after `drop skip` — all of them when no `limit` key
is present, truncated by `take limit` afterwards when a positive limit
is present (second conjunct). -/
theorem c5_find_defaults (hdr : Option String) (db : DB) (fs : Doc) (dname cname : String)
    (hok : db.failure = none)
    (hd : jlookup fs "database" = some (.str dname))
    (hc : jlookup fs "collection" = some (.str cname)) :
    (jlookup fs "filter" = none → jlookup fs "skip" = none →
      find ⟨hdr, some (.obj fs)⟩ db
        = find ⟨hdr, some (.obj (fs ++ [("filter", .obj []), ("skip", .num 0)]))⟩ db) ∧
    (authenticate_request (hdr.getD "") = true →
      ∀ (ffs : Doc) (s : Int),
        (jlookup fs "filter").getD (.obj []) = .obj ffs →
        (jlookup fs "skip").getD (.num 0) = .num s → 0 ≤ s →
        ((jlookup fs "limit" = none →
          oidFreeArr ((((db.readColl (dname, cname)).filter
              (fun d => docMatches d ffs)).drop s.natAbs).map
              (fun d => JValue.obj (convertId d))) = true →
          find ⟨hdr, some (.obj fs)⟩ db =
            (⟨200, .obj [("documents", .arr ((((db.readColl (dname, cname)).filter
              (fun d => docMatches d ffs)).drop s.natAbs).map
              (fun d => JValue.obj (convertId d))))]⟩, db)) ∧
        (∀ n : Int, jlookup fs "limit" = some (.num n) → 0 < n →
          oidFreeArr (((((db.readColl (dname, cname)).filter
              (fun d => docMatches d ffs)).drop s.natAbs).take n.natAbs).map
              (fun d => JValue.obj (convertId d))) = true →
          find ⟨hdr, some (.obj fs)⟩ db =
            (⟨200, .obj [("documents", .arr (((((db.readColl (dname, cname)).filter
              (fun d => docMatches d ffs)).drop s.natAbs).take n.natAbs).map
              (fun d => JValue.obj (convertId d))))]⟩, db)))) := by
  constructor
  · intro hfn hsn
    refine find_eq_of_try_eq hdr _ _ db ?_
    refine tryFind_eq_of_lookups fs _ db ?_ ?_ ?_ ?_ ?_
    · rw [jlookup_append, hd]
    · rw [jlookup_append, hc]
    · rw [jlookup_append, hfn]
      rfl
    · intro docs
      rw [jlookup_append]
      cases jlookup fs "limit" <;> rfl
    · rw [jlookup_append, hsn]
      rfl
  · intro hauth ffs s hfil hskip hs
    constructor
    · intro hln hser
      refine find_of_try_ok hdr _ db _ db hauth ?_
      refine tryFind_success db fs dname cname ffs s hok hd hc hfil hskip hs
        JValue.null ?_ _ ?_ hser
      · rw [hln]
        rfl
      · exact cursorLimit_falsy _ _ rfl
    · intro n hln hn hser
      refine find_of_try_ok hdr _ db _ db hauth ?_
      refine tryFind_success db fs dname cname ffs s hok hd hc hfil hskip hs
        (.num n) ?_ _ ?_ hser
      · rw [hln]
        rfl
      · exact cursorLimit_num _ n hn

/-- Witness for `c5_find_defaults`: the defaults equality on a body
with absent optional fields, and the spec's skip-before-limit example
(five documents, `skip: 2, limit: 1` returns exactly the third). -/
theorem c5_witness :
    (find ⟨some "Basic dGVzdHVzZXI6dGVzdHBhc3M=",
        some (.obj [("database", .str "d"), ("collection", .str "c")])⟩ ⟨[], 0, none⟩
      = find ⟨some "Basic dGVzdHVzZXI6dGVzdHBhc3M=",
        some (.obj ([("database", .str "d"), ("collection", .str "c")]
          ++ [("filter", .obj []), ("skip", .num 0)]))⟩ ⟨[], 0, none⟩) ∧
    (find ⟨some "Basic dGVzdHVzZXI6dGVzdHBhc3M=",
        some (.obj [("database", .str "d"), ("collection", .str "c"),
          ("skip", .num 2), ("limit", .num 1)])⟩
        ⟨[(("d", "c"), [[("x", .num 1)], [("x", .num 2)], [("x", .num 3)],
          [("x", .num 4)], [("x", .num 5)]])], 9, none⟩ =
      (⟨200, .obj [("documents", .arr ((((((⟨[(("d", "c"),
          [[("x", .num 1)], [("x", .num 2)], [("x", .num 3)],
           [("x", .num 4)], [("x", .num 5)]])], 9, none⟩ : DB).readColl
          ("d", "c")).filter (fun d => docMatches d [])).drop
          (2 : Int).natAbs).take (1 : Int).natAbs).map
          (fun d => JValue.obj (convertId d))))]⟩,
       ⟨[(("d", "c"), [[("x", .num 1)], [("x", .num 2)], [("x", .num 3)],
          [("x", .num 4)], [("x", .num 5)]])], 9, none⟩)) :=
  And.intro
    ((c5_find_defaults (some "Basic dGVzdHVzZXI6dGVzdHBhc3M=") ⟨[], 0, none⟩
      [("database", .str "d"), ("collection", .str "c")] "d" "c" rfl rfl rfl).1 rfl rfl)
    (((c5_find_defaults (some "Basic dGVzdHVzZXI6dGVzdHBhc3M=")
      ⟨[(("d", "c"), [[("x", .num 1)], [("x", .num 2)], [("x", .num 3)],
        [("x", .num 4)], [("x", .num 5)]])], 9, none⟩
      [("database", .str "d"), ("collection", .str "c"),
       ("skip", .num 2), ("limit", .num 1)] "d" "c" rfl rfl rfl).2
      (by decide) [] 2 rfl rfl (by decide)).2 1 rfl (by decide) rfl)

/-! ## C10 — a falsy limit is no limit -/

/-- C10: on `find`, a present-but-falsy `limit` value (`0`, `null`,
`false`, …) is skipped by `if limit:` — the handler behaves exactly as
on the same request with the `limit` key removed, i.e. the results are
unbounded; only a truthy limit reaches `cursor.limit`. -/
theorem c10_falsy_limit (hdr : Option String) (db : DB) (fs : Doc) (v : JValue)
    (hlim : jlookup fs "limit" = some v) (hfalsy : jTruthy v = false) :
    find ⟨hdr, some (.obj fs)⟩ db
      = find ⟨hdr, some (.obj (fs.filter (fun kv => !(kv.1 == "limit"))))⟩ db := by
  refine find_eq_of_try_eq hdr _ _ db ?_
  refine tryFind_eq_of_lookups fs _ db ?_ ?_ ?_ ?_ ?_
  · rw [jlookup_eraseKey fs "limit" "database" (by decide)]
  · rw [jlookup_eraseKey fs "limit" "collection" (by decide)]
  · rw [jlookup_eraseKey fs "limit" "filter" (by decide)]
  · intro docs
    rw [jlookup_eraseKey_self fs "limit", hlim]
    show cursorLimit docs v = cursorLimit docs JValue.null
    rw [cursorLimit_falsy docs _ hfalsy, cursorLimit_falsy docs JValue.null rfl]
  · rw [jlookup_eraseKey fs "limit" "skip" (by decide)]

/-- Witness for `c10_falsy_limit`: `limit: 0` behaves as no limit. -/
theorem c10_witness :
    jlookup [("database", .str "d"), ("collection", .str "c"), ("limit", .num 0)] "limit"
      = some (.num 0) ∧
    jTruthy (.num 0) = false ∧
    find ⟨some "Basic dGVzdHVzZXI6dGVzdHBhc3M=",
        some (.obj [("database", .str "d"), ("collection", .str "c"), ("limit", .num 0)])⟩
        ⟨[(("d", "c"), [[("x", .num 1)], [("x", .num 2)]])], 9, none⟩
      = find ⟨some "Basic dGVzdHVzZXI6dGVzdHBhc3M=",
        some (.obj (([("database", .str "d"), ("collection", .str "c"),
          ("limit", .num 0)] : Doc).filter (fun kv => !(kv.1 == "limit"))))⟩
        ⟨[(("d", "c"), [[("x", .num 1)], [("x", .num 2)]])], 9, none⟩ :=
  And.intro rfl (And.intro rfl
    (c10_falsy_limit (some "Basic dGVzdHVzZXI6dGVzdHBhc3M=")
      ⟨[(("d", "c"), [[("x", .num 1)], [("x", .num 2)]])], 9, none⟩
      [("database", .str "d"), ("collection", .str "c"), ("limit", .num 0)]
      (.num 0) rfl rfl))

end DocumentDB

